import Mathlib

/-!
Verification of the FedRAMP baseline constraint validation engine
(`services/api/app/services/fedramp_service.py`).

The engine is a pure function of a parsed JSON document tree and a baseline
string.  We shallowly embed the document tree as an inductive `Json` value and
each Python operation that can raise (attribute access on non-dicts, `in` on
non-containers, iteration over non-iterables, regex matching of non-strings)
as an `Except PyErr` computation, so that the orchestrator's exception
handling is modelled faithfully.  Wall-clock time and log output are
environmental and not modelled; `validation_time_ms` is fixed to 0 and the
timestamp inside the result metadata is omitted.
-/

set_option maxHeartbeats 1000000
set_option maxRecDepth 100000

/-- A JSON value as produced by `json.load` (numbers restricted to integers;
no claim depends on float values). -/
inductive Json where
  | null : Json
  | bool (b : Bool) : Json
  | num (n : Int) : Json
  | str (s : String) : Json
  | arr (elems : List Json) : Json
  | obj (fields : List (String × Json)) : Json

/-- Python `x == k` for a string literal `k`: values of other types are
simply unequal, never an error. -/
def Json.isStr : Json → String → Bool
  | .str s, k => s == k
  | _, _ => false

def optIsStr : Option Json → String → Bool
  | some j, k => j.isStr k
  | none, _ => false

/-- A Python exception: its type name and message. -/
structure PyErr where
  ty : String
  msg : String
  deriving DecidableEq, Repr

def attrError (attr : String) : PyErr :=
  { ty := "AttributeError", msg := "object has no attribute " ++ attr }

def typeError (m : String) : PyErr :=
  { ty := "TypeError", msg := m }

def keyError (k : String) : PyErr :=
  { ty := "KeyError", msg := k }

def notImplementedError (m : String) : PyErr :=
  { ty := "NotImplementedError", msg := m }

/-- Lookup of a key in a JSON object.  `json.load` produces a dict in which a
repeated key keeps its last value, so lookup takes the last binding. -/
def lookupLast (fs : List (String × Json)) (k : String) : Option Json :=
  fs.foldl (fun acc p => if p.1 = k then some p.2 else acc) none

/-- Python truthiness of a JSON value (`if not x`). -/
def Json.truthy : Json → Bool
  | .null => false
  | .bool b => b
  | .num n => n != 0
  | .str s => s != ""
  | .arr elems => !elems.isEmpty
  | .obj fields => !fields.isEmpty

/-- Truthiness of an optional value (`dict.get` with no default yields `None`,
which is falsy). -/
def optTruthy : Option Json → Bool
  | none => false
  | some j => j.truthy

/-- `x.get(k)` — raises `AttributeError` when `x` is not a dict. -/
def pyDictGet : Json → String → Except PyErr (Option Json)
  | .obj fs, k => .ok (lookupLast fs k)
  | _, _ => .error (attrError "get")

/-- `x.get(k, default)`. -/
def pyGetD (j : Json) (k : String) (d : Json) : Except PyErr Json :=
  match pyDictGet j k with
  | .error e => .error e
  | .ok v => .ok (v.getD d)

/-- `k in x` for a string `k`: key test on dicts, membership on lists,
substring test on strings; `TypeError` otherwise. -/
def pyContains (j : Json) (k : String) : Except PyErr Bool :=
  match j with
  | .obj fs => .ok (fs.any (fun p => p.1 == k))
  | .arr elems => .ok (elems.any (fun e => e.isStr k))
  | .str s => .ok ((s.toList.tails).any (fun t => k.toList.isPrefixOf t))
  | _ => .error (typeError "argument is not iterable")

/-- `x[k]` for a string key: dict subscription; `TypeError` on lists/strings
(whose indices must be integers) and other values. -/
def pyIndex (j : Json) (k : String) : Except PyErr Json :=
  match j with
  | .obj fs =>
    match lookupLast fs k with
    | some v => .ok v
    | none => .error (keyError k)
  | _ => .error (typeError "indices must be integers")

/-- Keys of a dict in first-insertion order (duplicates collapsed). -/
def objKeys (fs : List (String × Json)) : List String :=
  (fs.map (fun p => p.1)).eraseDups

/-- `for x in j`: lists yield elements, dicts yield keys, strings yield
one-character strings; other values raise `TypeError`. -/
def pyIter : Json → Except PyErr (List Json)
  | .arr elems => .ok elems
  | .obj fs => .ok ((objKeys fs).map Json.str)
  | .str s => .ok (s.toList.map (fun c => Json.str (String.mk [c])))
  | _ => .error (typeError "object is not iterable")

/-- A string-expecting attribute call such as `.lower()` or `.strip()`:
raises `AttributeError` on non-strings. -/
def pyAsStr (j : Json) (attr : String) : Except PyErr String :=
  match j with
  | .str s => .ok s
  | _ => .error (attrError attr)

def pyLower (s : String) : String := String.mk (s.toList.map Char.toLower)

def pyUpper (s : String) : String := String.mk (s.toList.map Char.toUpper)

/-- The ASCII whitespace characters `str.strip()` removes (the inputs here
are ASCII). -/
def pyIsSpace (c : Char) : Bool :=
  c = ' ' || c = '\t' || c = '\n' || c = '\r' || c = '\x0b' || c = '\x0c'

/-- `str.strip()`. -/
def pyStrip (s : String) : String :=
  String.mk (((s.toList.dropWhile pyIsSpace).reverse.dropWhile pyIsSpace).reverse)

/-- `str.title()` restricted to the ASCII inputs used here: the first letter
of each alphabetic run is upcased, the rest downcased. -/
def pyTitleAux : List Char → Bool → List Char
  | [], _ => []
  | c :: cs, prevAlpha =>
    (if c.isAlpha then (if prevAlpha then c.toLower else c.toUpper) else c)
      :: pyTitleAux cs c.isAlpha

def pyTitle (s : String) : String := String.mk (pyTitleAux s.toList false)

/-- `str(x)` as used in f-string interpolation of non-string leaves. -/
def pyFormatJson : Json → String
  | .null => "None"
  | .bool b => if b then "True" else "False"
  | .num n => toString n
  | .str s => s
  | .arr _ => "[...]"
  | .obj _ => "{...}"

def pyFormatOpt : Option Json → String
  | none => "None"
  | some j => pyFormatJson j

/-- One character of `[0-9a-f]`. -/
def isHexLower (c : Char) : Bool :=
  (decide ('0' ≤ c) && decide (c ≤ '9')) || (decide ('a' ≤ c) && decide (c ≤ 'f'))

/-- The body of the compiled pattern
`^[0-9a-f]8-[0-9a-f]4-[0-9a-f]4-[0-9a-f]4-[0-9a-f]12$` (group lengths
8-4-4-4-12): splitting on the dashes must yield exactly five all-hex groups of
those lengths. -/
def splitOnChar (c0 : Char) : List Char → List (List Char)
  | [] => [[]]
  | c :: cs =>
    match splitOnChar c0 cs with
    | [] => []
    | g :: gs => if c = c0 then [] :: g :: gs else (c :: g) :: gs

def uuidCore (cs : List Char) : Bool :=
  match splitOnChar '-' cs with
  | [a, b, c, d, e] =>
    a.length == 8 && b.length == 4 && c.length == 4 && d.length == 4 &&
    e.length == 12 && (a ++ b ++ c ++ d ++ e).all isHexLower
  | _ => false

/-- `re.match` of the anchored pattern: `$` also matches just before a single
trailing newline. -/
def pyUuidMatch (s : String) : Bool :=
  uuidCore s.toList
  || ((s.toList.getLast? == some '\n') && uuidCore s.toList.dropLast)

/-- One validation finding (`FedRAMPValidationIssue`). -/
structure Issue where
  severity : String
  code : String
  message : String
  location : Option String := none
  requirement : Option String := none
  baseline : Option String := none
  suggested_fix : Option String := none
  context : Option (List (String × String)) := none
  deriving DecidableEq, Repr

/-- Derived counts kept in `FedRAMPValidationResult.metadata`
(the `validation_date` timestamp is environmental and not modelled). -/
structure ResultMeta where
  total_issues : Nat
  error_count : Nat
  warning_count : Nat
  deriving DecidableEq, Repr

/-- `FedRAMPValidationResult` (wall-clock `validation_time_ms` fixed to 0). -/
structure ValidationResult where
  is_compliant : Bool
  baseline : String
  document_type : String
  issues : List Issue
  validation_time_ms : Nat
  metadata : Option ResultMeta
  deriving DecidableEq, Repr

def countCode (issues : List Issue) (c : String) : Nat :=
  (issues.filter (fun i => i.code == c)).length

def errorCount (issues : List Issue) : Nat :=
  (issues.filter (fun i => i.severity == "error")).length

/-- Sequential `Except`-valued map, stopping at the first raise, as a Python
`for` loop over a list does. -/
def exMapM (f : α → Except PyErr β) : List α → Except PyErr (List β)
  | [] => .ok []
  | a :: as =>
    match f a with
    | .error e => .error e
    | .ok b =>
      match exMapM f as with
      | .error e => .error e
      | .ok bs => .ok (b :: bs)

theorem exMapM_ok_mem {f : α → Except PyErr β} {xs : List α} {ys : List β}
    (h : exMapM f xs = .ok ys) {y : β} (hy : y ∈ ys) :
    ∃ x ∈ xs, f x = .ok y := by
  induction xs generalizing ys with
  | nil =>
    simp [exMapM] at h
    subst h
    simp at hy
  | cons a as ih =>
    simp only [exMapM] at h
    cases hfa : f a with
    | error e => rw [hfa] at h; simp at h
    | ok b =>
      rw [hfa] at h
      cases hrest : exMapM f as with
      | error e => rw [hrest] at h; simp at h
      | ok bs =>
        rw [hrest] at h
        injection h with h2
        subst h2
        rcases List.mem_cons.mp hy with rfl | hmem
        · exact ⟨a, by simp, hfa⟩
        · rcases ih hrest hmem with ⟨x, hx, hfx⟩
          exact ⟨x, by simp [hx], hfx⟩

/-- Per-baseline static configuration (`_load_baseline_requirements`). -/
structure BaselineReq where
  required_controls : List String
  min_controls : Nat
  required_metadata : List String

/-- The `low` baseline required-control list, transcribed from the source. -/
def lowControls : List String :=
  ["ac-1", "ac-2", "ac-3", "ac-7", "ac-8", "ac-14", "ac-17", "ac-18", "ac-19", "ac-20", "ac-22",
   "at-1", "at-2", "at-3", "at-4",
   "au-1", "au-2", "au-3", "au-4", "au-5", "au-6", "au-8", "au-9", "au-11", "au-12",
   "ca-1", "ca-2", "ca-3", "ca-5", "ca-6", "ca-7", "ca-9",
   "cm-1", "cm-2", "cm-4", "cm-5", "cm-6", "cm-7", "cm-8", "cm-10", "cm-11",
   "cp-1", "cp-2", "cp-3", "cp-4", "cp-9", "cp-10",
   "ia-1", "ia-2", "ia-4", "ia-5", "ia-6", "ia-7", "ia-8",
   "ir-1", "ir-2", "ir-4", "ir-5", "ir-6", "ir-7", "ir-8",
   "ma-1", "ma-2", "ma-4", "ma-5",
   "mp-1", "mp-2", "mp-6", "mp-7",
   "pe-1", "pe-2", "pe-3", "pe-6", "pe-8", "pe-12", "pe-13", "pe-14", "pe-15", "pe-16",
   "pl-1", "pl-2", "pl-4",
   "ps-1", "ps-2", "ps-3", "ps-4", "ps-5", "ps-6", "ps-7", "ps-8",
   "ra-1", "ra-2", "ra-3", "ra-5",
   "sa-1", "sa-2", "sa-3", "sa-4", "sa-5", "sa-9",
   "sc-1", "sc-2", "sc-4", "sc-5", "sc-7", "sc-12", "sc-13", "sc-15", "sc-20", "sc-21", "sc-22",
   "si-1", "si-2", "si-3", "si-4", "si-5", "si-12"]

/-- The `moderate` baseline required-control list, transcribed from the source. -/
def moderateControls : List String :=
  ["ac-1", "ac-2", "ac-3", "ac-4", "ac-5", "ac-6", "ac-7", "ac-8", "ac-11", "ac-12",
   "ac-14", "ac-17", "ac-18", "ac-19", "ac-20", "ac-22",
   "at-1", "at-2", "at-3", "at-4",
   "au-1", "au-2", "au-3", "au-4", "au-5", "au-6", "au-7", "au-8", "au-9", "au-10",
   "au-11", "au-12",
   "ca-1", "ca-2", "ca-3", "ca-5", "ca-6", "ca-7", "ca-8", "ca-9",
   "cm-1", "cm-2", "cm-3", "cm-4", "cm-5", "cm-6", "cm-7", "cm-8", "cm-9", "cm-10",
   "cm-11",
   "cp-1", "cp-2", "cp-3", "cp-4", "cp-6", "cp-7", "cp-8", "cp-9", "cp-10",
   "ia-1", "ia-2", "ia-3", "ia-4", "ia-5", "ia-6", "ia-7", "ia-8", "ia-11",
   "ir-1", "ir-2", "ir-3", "ir-4", "ir-5", "ir-6", "ir-7", "ir-8",
   "ma-1", "ma-2", "ma-3", "ma-4", "ma-5", "ma-6",
   "mp-1", "mp-2", "mp-3", "mp-4", "mp-5", "mp-6", "mp-7",
   "pe-1", "pe-2", "pe-3", "pe-4", "pe-5", "pe-6", "pe-8", "pe-9", "pe-10",
   "pe-11", "pe-12", "pe-13", "pe-14", "pe-15", "pe-16", "pe-17",
   "pl-1", "pl-2", "pl-4", "pl-8",
   "ps-1", "ps-2", "ps-3", "ps-4", "ps-5", "ps-6", "ps-7", "ps-8",
   "ra-1", "ra-2", "ra-3", "ra-5",
   "sa-1", "sa-2", "sa-3", "sa-4", "sa-5", "sa-8", "sa-9", "sa-10",
   "sc-1", "sc-2", "sc-3", "sc-4", "sc-5", "sc-7", "sc-8", "sc-10", "sc-11",
   "sc-12", "sc-13", "sc-15", "sc-17", "sc-18", "sc-19", "sc-20", "sc-21", "sc-22", "sc-23",
   "si-1", "si-2", "si-3", "si-4", "si-5", "si-6", "si-7", "si-8", "si-10", "si-11", "si-12"]

/-- The `high` baseline required-control list: empty in the source
(truncated there with an explicit comment). -/
def highControls : List String := []

/-- `self.baseline_requirements` with `.get(baseline)` semantics:
`none` for an unrecognized baseline. -/
def baselineRequirements (b : String) : Option BaselineReq :=
  if b = "low" then
    some { required_controls := lowControls, min_controls := 108,
           required_metadata := ["system_name", "system_id", "authorization_boundary"] }
  else if b = "moderate" then
    some { required_controls := moderateControls, min_controls := 325,
           required_metadata := ["system_name", "system_id", "authorization_boundary", "data_types"] }
  else if b = "high" then
    some { required_controls := highControls, min_controls := 421,
           required_metadata := ["system_name", "system_id", "authorization_boundary", "data_types",
                                 "system_categorization", "high_water_mark"] }
  else none

/-- `set(baseline_reqs.get("required_controls", []))`: the distinct required
controls of a baseline (empty for an unrecognized baseline). -/
def requiredControlsOf (b : String) : List String :=
  (match baselineRequirements b with
   | some r => r.required_controls
   | none => []).eraseDups

def minControlsOf (b : String) : Nat :=
  match baselineRequirements b with
  | some r => r.min_controls
  | none => 0

def requiredMetadataOf (b : String) : List String :=
  match baselineRequirements b with
  | some r => r.required_metadata
  | none => []

/-- The `required_artifacts` table local to `_validate_required_artifacts`,
with `.get(baseline, [])` semantics. -/
def requiredArtifactsOf (b : String) : List String :=
  if b = "low" then ["system-security-plan", "rules-of-behavior"]
  else if b = "moderate" then
    ["system-security-plan", "rules-of-behavior", "privacy-impact-assessment",
     "contingency-plan", "configuration-management-plan"]
  else if b = "high" then
    ["system-security-plan", "rules-of-behavior", "privacy-impact-assessment",
     "contingency-plan", "configuration-management-plan", "incident-response-plan",
     "system-security-architecture", "penetration-test-results"]
  else []

/-- The required top-level elements list of `_validate_ssp_structure`. -/
def requiredElements : List String :=
  ["system-security-plan", "uuid", "metadata", "system-characteristics",
   "system-implementation", "control-implementation"]

def mkMissingElement (e : String) : Issue :=
  { severity := "error", code := "FEDRAMP_MISSING_ELEMENT",
    message := "Required element \x27" ++ e ++ "\x27 is missing from SSP",
    location := some ("system-security-plan." ++ e),
    requirement := some "FedRAMP SSP Template Requirements" }

def mkInvalidUuid : Issue :=
  { severity := "error", code := "FEDRAMP_INVALID_UUID",
    message := "SSP UUID format is invalid",
    location := some "system-security-plan.uuid",
    suggested_fix := some "Ensure UUID follows RFC 4122 format" }

def mkSysNameIssue (b : String) : Issue :=
  { severity := "error", code := "FEDRAMP_MISSING_SYSTEM_NAME",
    message := "System name (title) is required and must be at least 3 characters",
    location := some "system-security-plan.metadata.title", baseline := some b }

def mkSysIdIssue (b : String) : Issue :=
  { severity := "error", code := "FEDRAMP_MISSING_SYSTEM_ID",
    message := "System identifier is required",
    location := some "system-security-plan.system-characteristics.system-id",
    baseline := some b }

def mkVersionWarn : Issue :=
  { severity := "warning", code := "FEDRAMP_MISSING_VERSION",
    message := "Document version should be specified",
    location := some "system-security-plan.metadata.version" }

def mkLastModifiedWarn : Issue :=
  { severity := "warning", code := "FEDRAMP_MISSING_LAST_MODIFIED",
    message := "Last modified timestamp should be specified",
    location := some "system-security-plan.metadata.last-modified" }

def mkStatementsIssue (b cid : String) : Issue :=
  { severity := "error", code := "FEDRAMP_MISSING_CONTROL_STATEMENTS",
    message := "Control " ++ pyUpper cid ++ " is missing implementation statements",
    location := some ("control-implementation.implemented-requirements[control-id=\x27"
                      ++ cid ++ "\x27].statements"),
    baseline := some b }

def mkRolesWarn (b cid : String) : Issue :=
  { severity := "warning", code := "FEDRAMP_MISSING_RESPONSIBLE_ROLES",
    message := "Control " ++ pyUpper cid ++ " should specify responsible roles",
    location := some ("control-implementation.implemented-requirements[control-id=\x27"
                      ++ cid ++ "\x27].responsible-roles"),
    baseline := some b }

def mkMissingControlIssue (b c : String) : Issue :=
  { severity := "error", code := "FEDRAMP_MISSING_REQUIRED_CONTROL",
    message := "Required control " ++ pyUpper c ++ " is not implemented",
    location := some "control-implementation.implemented-requirements",
    requirement := some ("FedRAMP " ++ pyTitle b ++ " Baseline"),
    baseline := some b,
    suggested_fix := some ("Add implementation for control " ++ pyUpper c) }

def mkInsufficientIssue (b : String) (expected found : Nat) : Issue :=
  { severity := "error", code := "FEDRAMP_INSUFFICIENT_CONTROLS",
    message := "Insufficient controls implemented. Expected at least "
               ++ toString expected ++ ", found " ++ toString found,
    location := some "control-implementation.implemented-requirements",
    baseline := some b }

def mkMissingRole (r : String) : Issue :=
  { severity := "error", code := "FEDRAMP_MISSING_ROLE",
    message := "Required role \x27" ++ r ++ "\x27 is not defined",
    location := some "system-security-plan.metadata.roles",
    requirement := some "FedRAMP Required Roles" }

def mkRoleWithoutParty (roleId : Option Json) : Issue :=
  { severity := "warning", code := "FEDRAMP_ROLE_WITHOUT_PARTY",
    message := "Role \x27" ++ pyFormatOpt roleId ++ "\x27 has no assigned parties",
    location := some "system-security-plan.metadata.responsible-parties" }

def mkNoComponents : Issue :=
  { severity := "error", code := "FEDRAMP_NO_COMPONENTS",
    message := "System must define at least one component",
    location := some "system-security-plan.system-implementation.components",
    requirement := some "FedRAMP System Documentation Requirements" }

def mkCompMissingUuid (idx : Nat) : Issue :=
  { severity := "error", code := "FEDRAMP_COMPONENT_MISSING_UUID",
    message := "Component at index " ++ toString idx ++ " is missing UUID",
    location := some ("system-security-plan.system-implementation.components["
                      ++ toString idx ++ "].uuid") }

def mkCompMissingType (idx : Nat) (titleRepr : String) : Issue :=
  { severity := "error", code := "FEDRAMP_COMPONENT_MISSING_TYPE",
    message := "Component \x27" ++ titleRepr ++ "\x27 is missing type specification",
    location := some ("system-security-plan.system-implementation.components["
                      ++ toString idx ++ "].type") }

def mkCompMissingTitle (idx : Nat) : Issue :=
  { severity := "error", code := "FEDRAMP_COMPONENT_MISSING_TITLE",
    message := "Component at index " ++ toString idx
               ++ " needs a descriptive title (min 3 characters)",
    location := some ("system-security-plan.system-implementation.components["
                      ++ toString idx ++ "].title") }

def mkMissingAuthBoundary : Issue :=
  { severity := "error", code := "FEDRAMP_MISSING_AUTH_BOUNDARY",
    message := "Authorization boundary description is required",
    location := some "system-security-plan.system-characteristics.authorization-boundary",
    requirement := some "FedRAMP Authorization Boundary Requirements" }

def mkInsufficientAuthBoundary : Issue :=
  { severity := "warning", code := "FEDRAMP_INSUFFICIENT_AUTH_BOUNDARY",
    message := "Authorization boundary description should be more detailed (min 50 characters)",
    location := some "system-security-plan.system-characteristics.authorization-boundary.description" }

def mkMissingNetworkArch : Issue :=
  { severity := "warning", code := "FEDRAMP_MISSING_NETWORK_ARCH",
    message := "Network architecture documentation is recommended",
    location := some "system-security-plan.system-characteristics.network-architecture" }

def mkDataFlowIssue (b : String) : Issue :=
  { severity := if b = "high" then "error" else "warning",
    code := "FEDRAMP_MISSING_DATA_FLOW",
    message := "Data flow documentation is "
               ++ (if b = "high" then "required" else "recommended")
               ++ " for " ++ pyTitle b ++ " baseline",
    location := some "system-security-plan.system-characteristics.data-flow",
    baseline := some b }

def mkMissingArtifact (b a : String) : Issue :=
  { severity := "warning", code := "FEDRAMP_MISSING_ARTIFACT",
    message := "Required artifact \x27" ++ a ++ "\x27 not found in back-matter resources",
    location := some "system-security-plan.back-matter.resources",
    baseline := some b,
    suggested_fix := some ("Add reference to " ++ a ++ " document in back-matter") }

def mkValidationError (e : PyErr) : Issue :=
  { severity := "error", code := "FEDRAMP_VALIDATION_ERROR",
    message := "Validation process failed: " ++ e.msg,
    context := some [("exception_type", e.ty)] }

def mkValidationFailed (e : PyErr) : Issue :=
  { severity := "error", code := "FEDRAMP_VALIDATION_FAILED",
    message := "FedRAMP validation failed: " ++ e.msg,
    context := some [("exception_type", e.ty)] }

def mkUnsupportedIssue (dt : String) : Issue :=
  { severity := "info", code := "FEDRAMP_UNSUPPORTED_DOCUMENT",
    message := "FedRAMP validation not yet implemented for " ++ dt ++ " documents" }

/-- The missing-element issues of the structural check: one per required
element whose presence flag is false, in list order. -/
def missingElementIssues (flags : List (String × Bool)) : List Issue :=
  flags.filterMap (fun p => if p.2 then none else some (mkMissingElement p.1))

/-- The UUID-format part of `_validate_ssp_structure`: only runs when `uuid`
is a key of the SSP root; `re.match` raises `TypeError` on non-strings. -/
def uuidIssues (root : Json) : Except PyErr (List Issue) :=
  match pyContains root "uuid" with
  | .error e => .error e
  | .ok false => .ok []
  | .ok true =>
    match pyIndex root "uuid" with
    | .error e => .error e
    | .ok v =>
      match v with
      | .str s => .ok (if pyUuidMatch s then [] else [mkInvalidUuid])
      | _ => .error (typeError "expected string or bytes-like object")

/-- `_validate_ssp_structure`: checks the six required elements against
`ssp_data.get("system-security-plan", {})` (note: the root key itself is
looked up inside that object), then validates the UUID format. -/
def validate_ssp_structure (t : Json) : Except PyErr (List Issue) :=
  match pyGetD t "system-security-plan" (Json.obj []) with
  | .error e => .error e
  | .ok root =>
    match exMapM (fun e => (pyContains root e).map (fun pres => (e, pres))) requiredElements with
    | .error e => .error e
    | .ok flags =>
      match uuidIssues root with
      | .error e => .error e
      | .ok uIss => .ok (missingElementIssues flags ++ uIss)

/-- One iteration of the `required_metadata` loop in
`_validate_system_metadata`. -/
def mdFieldIssues (b : String) (md sc : Json) (field : String) :
    Except PyErr (List Issue) :=
  if field = "system_name" then
    match pyGetD md "title" (Json.str "") with
    | .error e => .error e
    | .ok title =>
      if title.truthy then
        match pyAsStr title "strip" with
        | .error e => .error e
        | .ok s => .ok (if (pyStrip s).length < 3 then [mkSysNameIssue b] else [])
      else .ok [mkSysNameIssue b]
  else if field = "system_id" then
    match pyDictGet sc "system-id" with
    | .error e => .error e
    | .ok sid => .ok (if optTruthy sid then [] else [mkSysIdIssue b])
  else .ok []

/-- `_validate_system_metadata`. -/
def validate_system_metadata (t : Json) (b : String) : Except PyErr (List Issue) :=
  match pyGetD t "system-security-plan" (Json.obj []) with
  | .error e => .error e
  | .ok root =>
    match pyGetD root "metadata" (Json.obj []) with
    | .error e => .error e
    | .ok md =>
      match pyGetD root "system-characteristics" (Json.obj []) with
      | .error e => .error e
      | .ok sc =>
        match exMapM (mdFieldIssues b md sc) (requiredMetadataOf b) with
        | .error e => .error e
        | .ok fieldIss =>
          match pyContains md "version" with
          | .error e => .error e
          | .ok hasVersion =>
            match pyContains md "last-modified" with
            | .error e => .error e
            | .ok hasLastModified =>
              .ok (fieldIss.flatten
                   ++ (if hasVersion then [] else [mkVersionWarn])
                   ++ (if hasLastModified then [] else [mkLastModifiedWarn]))

/-- The per-requirement view extracted by one iteration of the
`implemented_requirements` loop: the lower-cased `control-id` (empty when the
record has none) and the truthiness of `statements` / `responsible-roles`.
When the record is a dict, the inner `.get` calls cannot raise, so the
statements/roles flags can be read unconditionally. -/
structure ReqView where
  cid : String
  stmtsFalsy : Bool
  rolesFalsy : Bool

def extractReq (req : Json) : Except PyErr ReqView :=
  match pyGetD req "control-id" (Json.str "") with
  | .error e => .error e
  | .ok cidVal =>
    match pyAsStr cidVal "lower" with
    | .error e => .error e
    | .ok cidStr =>
      match pyGetD req "statements" (Json.arr []) with
      | .error e => .error e
      | .ok stmts =>
        match pyGetD req "responsible-roles" (Json.arr []) with
        | .error e => .error e
        | .ok roles =>
          .ok { cid := pyLower cidStr, stmtsFalsy := !stmts.truthy,
                rolesFalsy := !roles.truthy }

/-- Issues contributed by one requirement record.  The statements/roles checks
sit inside `if control_id:` in the source, so a record whose `control-id` is
absent or empty contributes nothing. -/
def reqIssues (b : String) (v : ReqView) : List Issue :=
  if v.cid = "" then []
  else (if v.stmtsFalsy then [mkStatementsIssue b v.cid] else [])
       ++ (if v.rolesFalsy then [mkRolesWarn b v.cid] else [])

/-- `implemented_controls` accumulated by the loop: the distinct non-empty
lower-cased control ids, in first-appearance order. -/
def implControls (views : List ReqView) : List String :=
  views.foldl (fun acc v => if v.cid = "" then acc
                            else if acc.contains v.cid then acc
                            else acc ++ [v.cid]) []

/-- The requirement records of the document, as traversed by
`_validate_control_implementation`. -/
def extractReqViews (t : Json) : Except PyErr (List ReqView) :=
  match pyGetD t "system-security-plan" (Json.obj []) with
  | .error e => .error e
  | .ok root =>
    match pyGetD root "control-implementation" (Json.obj []) with
    | .error e => .error e
    | .ok ci =>
      match pyGetD ci "implemented-requirements" (Json.arr []) with
      | .error e => .error e
      | .ok irs =>
        match pyIter irs with
        | .error e => .error e
        | .ok items => exMapM extractReq items

/-- The implemented-control set of a document (the claim C3 notion of `I`). -/
def implementedControlsE (t : Json) : Except PyErr (List String) :=
  match extractReqViews t with
  | .error e => .error e
  | .ok views => .ok (implControls views)

/-- Issues of `_validate_control_implementation` after the views are known:
per-requirement issues in loop order, then one missing-control error per
required control not implemented, then the minimum-count error if the number
of distinct implemented controls is below the floor. -/
def controlIssues (b : String) (views : List ReqView) : List Issue :=
  let impl := implControls views
  (views.flatMap (reqIssues b))
  ++ ((requiredControlsOf b).filter (fun c => !impl.contains c)).map (mkMissingControlIssue b)
  ++ (if impl.length < minControlsOf b then
        [mkInsufficientIssue b (minControlsOf b) impl.length] else [])

/-- `_validate_control_implementation`. -/
def validate_control_implementation (t : Json) (b : String) :
    Except PyErr (List Issue) :=
  match extractReqViews t with
  | .error e => .error e
  | .ok views => .ok (controlIssues b views)

def requiredRoles : List String :=
  ["system-owner", "authorizing-official", "system-administrator",
   "information-system-security-manager", "control-assessor"]

/-- `_validate_responsible_roles`. -/
def validate_responsible_roles (t : Json) : Except PyErr (List Issue) :=
  match pyGetD t "system-security-plan" (Json.obj []) with
  | .error e => .error e
  | .ok root =>
    match pyGetD root "metadata" (Json.obj []) with
    | .error e => .error e
    | .ok md =>
      match pyGetD md "roles" (Json.arr []) with
      | .error e => .error e
      | .ok roles =>
        match pyGetD md "parties" (Json.arr []) with
        | .error e => .error e
        | .ok _ =>
          match pyIter roles with
          | .error e => .error e
          | .ok roleItems =>
            match exMapM (fun r => pyDictGet r "id") roleItems with
            | .error e => .error e
            | .ok roleIds =>
              let missingRoles :=
                requiredRoles.filter (fun rr => !(roleIds.any (fun v => optIsStr v rr)))
              match pyGetD md "responsible-parties" (Json.arr []) with
              | .error e => .error e
              | .ok rps =>
                match pyIter rps with
                | .error e => .error e
                | .ok rpItems =>
                  match exMapM (fun p =>
                      match pyDictGet p "role-id" with
                      | .error e => .error e
                      | .ok rid =>
                        match pyGetD p "party-uuids" (Json.arr []) with
                        | .error e => .error e
                        | .ok pus => .ok (rid, pus.truthy)) rpItems with
                  | .error e => .error e
                  | .ok rpViews =>
                    .ok (missingRoles.map mkMissingRole
                         ++ (rpViews.filter (fun v => !v.2)).map
                              (fun v => mkRoleWithoutParty v.1))

/-- The per-component view of `_validate_components`: truthiness of `uuid` and
`type`, the `title` value rendering for the type message, and the result of
the title length check (`not title or len(title.strip()) < 3`, which raises
on a truthy non-string title). -/
structure CompView where
  uuidFalsy : Bool
  typeFalsy : Bool
  titleRepr : String
  titleBad : Bool

def extractComp (c : Json) : Except PyErr CompView :=
  match pyDictGet c "uuid" with
  | .error e => .error e
  | .ok uuidVal =>
    match pyDictGet c "type" with
    | .error e => .error e
    | .ok typeVal =>
      match pyGetD c "title" (Json.str "") with
      | .error e => .error e
      | .ok title =>
        match (if title.truthy then
                 match pyAsStr title "strip" with
                 | .error e => .error e
                 | .ok s => .ok ((pyStrip s).length < 3)
               else .ok true : Except PyErr Bool) with
        | .error e => .error e
        | .ok bad =>
          .ok { uuidFalsy := !optTruthy uuidVal, typeFalsy := !optTruthy typeVal,
                titleRepr := pyFormatJson title, titleBad := bad }

def compIssues (idx : Nat) (v : CompView) : List Issue :=
  (if v.uuidFalsy then [mkCompMissingUuid idx] else [])
  ++ (if v.typeFalsy then [mkCompMissingType idx v.titleRepr] else [])
  ++ (if v.titleBad then [mkCompMissingTitle idx] else [])

/-- `_validate_components`: an empty (or falsy) `components` value yields the
single no-components error and no per-component checks run. -/
def validate_components (t : Json) : Except PyErr (List Issue) :=
  match pyGetD t "system-security-plan" (Json.obj []) with
  | .error e => .error e
  | .ok root =>
    match pyGetD root "system-implementation" (Json.obj []) with
    | .error e => .error e
    | .ok simpl =>
      match pyGetD simpl "components" (Json.arr []) with
      | .error e => .error e
      | .ok comps =>
        if !comps.truthy then .ok [mkNoComponents]
        else
          match pyIter comps with
          | .error e => .error e
          | .ok items =>
            match exMapM extractComp items with
            | .error e => .error e
            | .ok views =>
              .ok ((views.enum.map (fun p => compIssues p.1 p.2)).flatten)

/-- `_validate_authorization_boundary`. -/
def validate_authorization_boundary (t : Json) : Except PyErr (List Issue) :=
  match pyGetD t "system-security-plan" (Json.obj []) with
  | .error e => .error e
  | .ok root =>
    match pyGetD root "system-characteristics" (Json.obj []) with
    | .error e => .error e
    | .ok sc =>
      match pyDictGet sc "authorization-boundary" with
      | .error e => .error e
      | .ok ab =>
        match (if optTruthy ab then
                 match pyGetD (ab.getD Json.null) "description" (Json.str "") with
                 | .error e => .error e
                 | .ok desc =>
                   if desc.truthy then
                     match pyAsStr desc "strip" with
                     | .error e => .error e
                     | .ok s =>
                       .ok (if (pyStrip s).length < 50 then [mkInsufficientAuthBoundary] else [])
                   else .ok [mkInsufficientAuthBoundary]
               else .ok [mkMissingAuthBoundary] : Except PyErr (List Issue)) with
        | .error e => .error e
        | .ok abIss =>
          match pyDictGet sc "network-architecture" with
          | .error e => .error e
          | .ok na =>
            .ok (abIss ++ (if optTruthy na then [] else [mkMissingNetworkArch]))

/-- `_validate_data_flows`: skipped entirely for the exact baseline string
`low`; otherwise one issue when `system-characteristics.data-flow` is absent
or falsy, with severity `error` exactly for baseline `high`. -/
def validate_data_flows (t : Json) (b : String) : Except PyErr (List Issue) :=
  if b = "low" then .ok []
  else
    match pyGetD t "system-security-plan" (Json.obj []) with
    | .error e => .error e
    | .ok root =>
      match pyGetD root "system-characteristics" (Json.obj []) with
      | .error e => .error e
      | .ok sc =>
        match pyDictGet sc "data-flow" with
        | .error e => .error e
        | .ok df => .ok (if optTruthy df then [] else [mkDataFlowIssue b])

/-- The lower-cased strings collected from one back-matter resource: its
title plus every `props` entry named `document-type`. -/
def resourceStrings (r : Json) : Except PyErr (List String) :=
  match pyGetD r "title" (Json.str "") with
  | .error e => .error e
  | .ok titleVal =>
    match pyAsStr titleVal "lower" with
    | .error e => .error e
    | .ok title =>
      match pyGetD r "props" (Json.arr []) with
      | .error e => .error e
      | .ok props =>
        match pyIter props with
        | .error e => .error e
        | .ok items =>
          match exMapM (fun p =>
              match pyDictGet p "name" with
              | .error e => .error e
              | .ok nameVal =>
                if optIsStr nameVal "document-type" then
                  match pyGetD p "value" (Json.str "") with
                  | .error e => .error e
                  | .ok v =>
                    match pyAsStr v "lower" with
                    | .error e => .error e
                    | .ok s => .ok [pyLower s]
                else .ok []) items with
          | .error e => .error e
          | .ok vals => .ok (pyLower title :: vals.flatten)

/-- `a in b` substring test on strings. -/
def strContains (hay needle : String) : Bool :=
  (hay.toList.tails).any (fun t => needle.toList.isPrefixOf t)

/-- `_validate_required_artifacts`: a warning for each required artifact
category of the baseline that is not a substring of any collected resource
string. -/
def validate_required_artifacts (t : Json) (b : String) :
    Except PyErr (List Issue) :=
  match pyGetD t "system-security-plan" (Json.obj []) with
  | .error e => .error e
  | .ok root =>
    match pyGetD root "back-matter" (Json.obj []) with
    | .error e => .error e
    | .ok bm =>
      match pyGetD bm "resources" (Json.arr []) with
      | .error e => .error e
      | .ok resources =>
        match pyIter resources with
        | .error e => .error e
        | .ok items =>
          match exMapM resourceStrings items with
          | .error e => .error e
          | .ok collected =>
            let resourceTypes := collected.flatten
            .ok (((requiredArtifactsOf b).filter (fun a =>
                    !(resourceTypes.any (fun rt => strContains rt (pyLower a))))).map
                  (mkMissingArtifact b))

/-- The eight rule checkers in fixed execution order
(`validate_ssp`, lines 178-201 of the source). -/
def checkerResults (t : Json) (b : String) : List (Except PyErr (List Issue)) :=
  [validate_ssp_structure t,
   validate_system_metadata t b,
   validate_control_implementation t b,
   validate_responsible_roles t,
   validate_components t,
   validate_authorization_boundary t,
   validate_data_flows t b,
   validate_required_artifacts t b]

/-- `issues.extend(...)` per checker inside the `try` block: issues of
completed checkers accumulate; the first raise stops the chain (the failing
checker's own partial issues are local to it and lost). -/
def collectIssues : List (Except PyErr (List Issue)) → List Issue × Option PyErr
  | [] => ([], none)
  | .error e :: _ => ([], some e)
  | .ok iss :: rest =>
    let r := collectIssues rest
    (iss ++ r.1, r.2)

/-- The orchestrator `FedRAMPConstraintValidator.validate_ssp`: runs the
checkers, converts a raise into a single `FEDRAMP_VALIDATION_ERROR` issue, and
always assembles a result.  It is a total function: no exception propagates. -/
def validate_ssp (t : Json) (b : String) : ValidationResult :=
  let r := collectIssues (checkerResults t b)
  let issues := r.1 ++ (match r.2 with
                        | some e => [mkValidationError e]
                        | none => [])
  { is_compliant := errorCount issues == 0,
    baseline := b,
    document_type := "system-security-plan",
    issues := issues,
    validation_time_ms := 0,
    metadata := some { total_issues := issues.length,
                       error_count := errorCount issues,
                       warning_count := (issues.filter
                         (fun i => i.severity == "warning")).length } }

/-- `FedRAMPService._detect_document_type`: first matching top-level key in a
fixed priority order, else `unknown`.  `in` raises on non-container values
(for example a JSON number at top level). -/
def detectDocumentType (d : Json) : Except PyErr String :=
  match pyContains d "system-security-plan" with
  | .error e => .error e
  | .ok true => .ok "system-security-plan"
  | .ok false =>
    match pyContains d "catalog" with
    | .error e => .error e
    | .ok true => .ok "catalog"
    | .ok false =>
      match pyContains d "profile" with
      | .error e => .error e
      | .ok true => .ok "profile"
      | .ok false =>
        match pyContains d "component-definition" with
        | .error e => .error e
        | .ok true => .ok "component-definition"
        | .ok false =>
          match pyContains d "assessment-plan" with
          | .error e => .error e
          | .ok true => .ok "assessment-plan"
          | .ok false =>
            match pyContains d "assessment-results" with
            | .error e => .error e
            | .ok true => .ok "assessment-results"
            | .ok false =>
              match pyContains d "plan-of-action-and-milestones" with
              | .error e => .error e
              | .ok true => .ok "plan-of-action-and-milestones"
              | .ok false => .ok "unknown"

/-- The input of `FedRAMPService.validate_document`: a file whose suffix is
`.json` together with the outcome of `json.load` on it, or a file with any
other suffix (which raises `NotImplementedError` before any parsing). -/
inductive DocSource where
  | jsonFile (decoded : Except PyErr Json)
  | nonJson

/-- The `except` branch of `validate_document`: a non-compliant result with a
single engine-level error; `document_type or "unknown"` maps a missing or
empty type to `unknown`. -/
def failedResult (b : String) (dt : Option String) (e : PyErr) : ValidationResult :=
  { is_compliant := false,
    baseline := b,
    document_type := match dt with
                     | some s => if s = "" then "unknown" else s
                     | none => "unknown",
    issues := [mkValidationFailed e],
    validation_time_ms := 0,
    metadata := none }

/-- The placeholder result for recognized non-SSP (and unknown) document
types.  The source sets `metadata={"note": ...}`, which carries no counts and
is not modelled. -/
def unsupportedResult (b dt : String) : ValidationResult :=
  { is_compliant := true,
    baseline := b,
    document_type := dt,
    issues := [mkUnsupportedIssue dt],
    validation_time_ms := 0,
    metadata := none }

/-- `if not document_type: document_type = self._detect_document_type(...)`:
a supplied empty string is falsy and triggers detection too. -/
def resolveDocType (doc : Json) (dt : Option String) : Except PyErr String :=
  match dt with
  | some s => if s = "" then detectDocumentType doc else .ok s
  | none => detectDocumentType doc

/-- `FedRAMPService.validate_document` on an already-fixed load outcome. -/
def validate_document (src : DocSource) (b : String) (dt : Option String) :
    ValidationResult :=
  match src with
  | .nonJson => failedResult b dt (notImplementedError "XML parsing not yet implemented")
  | .jsonFile (.error e) => failedResult b dt e
  | .jsonFile (.ok doc) =>
    match resolveDocType doc dt with
    | .error e => failedResult b dt e
    | .ok docType =>
      if docType = "system-security-plan" then validate_ssp doc b
      else unsupportedResult b docType

theorem countCode_append (l1 l2 : List Issue) (c : String) :
    countCode (l1 ++ l2) c = countCode l1 c + countCode l2 c := by
  simp [countCode, List.filter_append]

theorem countCode_eq_zero (l : List Issue) (c : String)
    (h : ∀ i ∈ l, i.code ≠ c) : countCode l c = 0 := by
  simp only [countCode, List.length_eq_zero]
  rw [List.filter_eq_nil_iff]
  intro i hi
  simpa using h i hi

theorem exMapM_nil_ok (f : α → Except PyErr β) : exMapM f [] = .ok [] := rfl

theorem exMapM_cons_ok {f : α → Except PyErr β} {x : α} {xs : List α} {ys : List β}
    (h : exMapM f (x :: xs) = .ok ys) :
    ∃ y ys2, f x = .ok y ∧ exMapM f xs = .ok ys2 ∧ ys = y :: ys2 := by
  simp only [exMapM] at h
  cases hfx : f x with
  | error e => rw [hfx] at h; exact absurd h (by simp)
  | ok y =>
    rw [hfx] at h
    cases hrest : exMapM f xs with
    | error e => rw [hrest] at h; exact absurd h (by simp)
    | ok ys2 =>
      rw [hrest] at h
      exact ⟨y, ys2, rfl, rfl, (Except.ok.inj h).symm⟩

/-- Every issue accumulated by the orchestrator before a possible raise comes
from a checker that returned normally. -/
theorem collectIssues_mem {L : List (Except PyErr (List Issue))} {i : Issue}
    (h : i ∈ (collectIssues L).1) :
    ∃ r ∈ L, ∃ iss, r = .ok iss ∧ i ∈ iss := by
  induction L with
  | nil => simp [collectIssues] at h
  | cons r rest ih =>
    cases r with
    | error e => simp [collectIssues] at h
    | ok iss =>
      simp only [collectIssues] at h
      rcases List.mem_append.mp h with hl | hr
      · exact ⟨.ok iss, by simp, iss, rfl, hl⟩
      · rcases ih hr with ⟨r2, hr2, iss2, heq, hmem⟩
        exact ⟨r2, by simp [hr2], iss2, heq, hmem⟩

theorem mem_missingElementIssues {flags : List (String × Bool)} {i : Issue}
    (h : i ∈ missingElementIssues flags) :
    ∃ p ∈ flags, p.2 = false ∧ i = mkMissingElement p.1 := by
  unfold missingElementIssues at h
  rcases List.mem_filterMap.mp h with ⟨p, hp, he⟩
  by_cases hb : p.2
  · simp [hb] at he
  · simp [hb] at he
    exact ⟨p, hp, by simpa using hb, he.symm⟩

theorem uuidIssues_ok {root : Json} {iss : List Issue}
    (h : uuidIssues root = .ok iss) : iss = [] ∨ iss = [mkInvalidUuid] := by
  unfold uuidIssues at h
  split at h
  · exact absurd h (by simp)
  · exact .inl (Except.ok.inj h).symm
  · split at h
    · exact absurd h (by simp)
    · split at h
      · split at h
        · exact .inl (Except.ok.inj h).symm
        · exact .inr (Except.ok.inj h).symm
      · exact absurd h (by simp)

theorem validate_ssp_structure_ok {t : Json} {iss : List Issue}
    (h : validate_ssp_structure t = .ok iss) :
    ∃ root flags uIss,
      pyGetD t "system-security-plan" (Json.obj []) = .ok root ∧
      exMapM (fun e => (pyContains root e).map (fun pres => (e, pres)))
        requiredElements = .ok flags ∧
      uuidIssues root = .ok uIss ∧
      iss = missingElementIssues flags ++ uIss := by
  unfold validate_ssp_structure at h
  split at h
  · exact absurd h (by simp)
  · rename_i root hroot
    split at h
    · exact absurd h (by simp)
    · rename_i flags hflags
      split at h
      · exact absurd h (by simp)
      · rename_i uIss huuid
        exact ⟨root, flags, uIss, hroot, hflags, huuid, (Except.ok.inj h).symm⟩

theorem struct_codes {t : Json} {iss : List Issue}
    (h : validate_ssp_structure t = .ok iss) :
    ∀ i ∈ iss, i.code = "FEDRAMP_MISSING_ELEMENT" ∨ i.code = "FEDRAMP_INVALID_UUID" := by
  rcases validate_ssp_structure_ok h with ⟨root, flags, uIss, _, _, huuid, rfl⟩
  intro i hi
  rcases List.mem_append.mp hi with hm | hu
  · rcases mem_missingElementIssues hm with ⟨p, _, _, rfl⟩
    exact .inl rfl
  · rcases uuidIssues_ok huuid with rfl | rfl
    · simp at hu
    · simp at hu
      subst hu
      exact .inr rfl

theorem mdFieldIssues_ok {b : String} {md sc : Json} {f : String} {iss : List Issue}
    (h : mdFieldIssues b md sc f = .ok iss) :
    iss = [] ∨ iss = [mkSysNameIssue b] ∨ iss = [mkSysIdIssue b] := by
  unfold mdFieldIssues at h
  split at h
  · split at h
    · exact absurd h (by simp)
    · split at h
      · split at h
        · exact absurd h (by simp)
        · split at h
          · exact .inr (.inl (Except.ok.inj h).symm)
          · exact .inl (Except.ok.inj h).symm
      · exact .inr (.inl (Except.ok.inj h).symm)
  · split at h
    · split at h
      · exact absurd h (by simp)
      · split at h
        · exact .inl (Except.ok.inj h).symm
        · exact .inr (.inr (Except.ok.inj h).symm)
    · exact .inl (Except.ok.inj h).symm

theorem validate_system_metadata_ok {t : Json} {b : String} {iss : List Issue}
    (h : validate_system_metadata t b = .ok iss) :
    ∃ root md sc fieldIss hasVersion hasLastModified,
      pyGetD t "system-security-plan" (Json.obj []) = .ok root ∧
      pyGetD root "metadata" (Json.obj []) = .ok md ∧
      pyGetD root "system-characteristics" (Json.obj []) = .ok sc ∧
      exMapM (mdFieldIssues b md sc) (requiredMetadataOf b) = .ok fieldIss ∧
      pyContains md "version" = .ok hasVersion ∧
      pyContains md "last-modified" = .ok hasLastModified ∧
      iss = fieldIss.flatten
            ++ (if hasVersion then [] else [mkVersionWarn])
            ++ (if hasLastModified then [] else [mkLastModifiedWarn]) := by
  unfold validate_system_metadata at h
  split at h
  · exact absurd h (by simp)
  · rename_i root hroot
    split at h
    · exact absurd h (by simp)
    · rename_i md hmd
      split at h
      · exact absurd h (by simp)
      · rename_i sc hsc
        split at h
        · exact absurd h (by simp)
        · rename_i fieldIss hfield
          split at h
          · exact absurd h (by simp)
          · rename_i hasV hv
            split at h
            · exact absurd h (by simp)
            · rename_i hasLM hlm
              exact ⟨root, md, sc, fieldIss, hasV, hasLM, hroot, hmd, hsc,
                     hfield, hv, hlm, (Except.ok.inj h).symm⟩

theorem metadata_codes {t : Json} {b : String} {iss : List Issue}
    (h : validate_system_metadata t b = .ok iss) :
    ∀ i ∈ iss, i.code = "FEDRAMP_MISSING_SYSTEM_NAME" ∨
               i.code = "FEDRAMP_MISSING_SYSTEM_ID" ∨
               i.code = "FEDRAMP_MISSING_VERSION" ∨
               i.code = "FEDRAMP_MISSING_LAST_MODIFIED" := by
  rcases validate_system_metadata_ok h with
    ⟨root, md, sc, fieldIss, hasV, hasLM, _, _, _, hfield, _, _, rfl⟩
  intro i hi
  rcases List.mem_append.mp hi with hi2 | hlm2
  · rcases List.mem_append.mp hi2 with hfl | hv2
    · rcases List.mem_flatten.mp hfl with ⟨l, hl, hil⟩
      rcases exMapM_ok_mem hfield hl with ⟨f, _, hok⟩
      rcases mdFieldIssues_ok hok with rfl | rfl | rfl
      · simp at hil
      · simp at hil; subst hil; exact .inl rfl
      · simp at hil; subst hil; exact .inr (.inl rfl)
    · split at hv2
      · simp at hv2
      · simp at hv2; subst hv2; exact .inr (.inr (.inl rfl))
  · split at hlm2
    · simp at hlm2
    · simp at hlm2; subst hlm2; exact .inr (.inr (.inr rfl))

/-- For an unrecognized baseline the `required_metadata` loop is empty, so
only the version / last-modified warnings can appear. -/
theorem metadata_codes_unknown {t : Json} {b : String} {iss : List Issue}
    (hb : baselineRequirements b = none)
    (h : validate_system_metadata t b = .ok iss) :
    ∀ i ∈ iss, i.code = "FEDRAMP_MISSING_VERSION" ∨
               i.code = "FEDRAMP_MISSING_LAST_MODIFIED" := by
  rcases validate_system_metadata_ok h with
    ⟨root, md, sc, fieldIss, hasV, hasLM, _, _, _, hfield, _, _, rfl⟩
  have hreq : requiredMetadataOf b = [] := by
    unfold requiredMetadataOf
    rw [hb]
  rw [hreq] at hfield
  have : fieldIss = [] := (Except.ok.inj hfield.symm)
  subst this
  intro i hi
  simp only [List.flatten_nil, List.nil_append] at hi
  rcases List.mem_append.mp hi with hv2 | hlm2
  · split at hv2
    · simp at hv2
    · simp at hv2; subst hv2; exact .inl rfl
  · split at hlm2
    · simp at hlm2
    · simp at hlm2; subst hlm2; exact .inr rfl

theorem validate_control_implementation_ok {t : Json} {b : String} {iss : List Issue}
    (h : validate_control_implementation t b = .ok iss) :
    ∃ views, extractReqViews t = .ok views ∧ iss = controlIssues b views := by
  unfold validate_control_implementation at h
  split at h
  · exact absurd h (by simp)
  · rename_i views hviews
    exact ⟨views, hviews, (Except.ok.inj h).symm⟩

theorem reqIssues_codes (b : String) (v : ReqView) :
    ∀ i ∈ reqIssues b v, i.code = "FEDRAMP_MISSING_CONTROL_STATEMENTS" ∨
                         i.code = "FEDRAMP_MISSING_RESPONSIBLE_ROLES" := by
  intro i hi
  unfold reqIssues at hi
  by_cases h1 : v.cid = ""
  · simp [h1] at hi
  · rw [if_neg h1] at hi
    rcases List.mem_append.mp hi with hs | hr
    · split at hs
      · simp at hs; subst hs; exact .inl rfl
      · simp at hs
    · split at hr
      · simp at hr; subst hr; exact .inr rfl
      · simp at hr

theorem countCode_reqIssues_stmt (b : String) (v : ReqView) :
    countCode (reqIssues b v) "FEDRAMP_MISSING_CONTROL_STATEMENTS"
      = if v.cid != "" && v.stmtsFalsy then 1 else 0 := by
  unfold reqIssues
  by_cases h1 : v.cid = ""
  · simp [h1, countCode]
  · by_cases h2 : v.stmtsFalsy
    · by_cases h3 : v.rolesFalsy
      · simp [h1, h2, h3, countCode, mkStatementsIssue, mkRolesWarn]
      · simp [h1, h2, h3, countCode, mkStatementsIssue, mkRolesWarn]
    · by_cases h3 : v.rolesFalsy
      · simp [h1, h2, h3, countCode, mkStatementsIssue, mkRolesWarn]
      · simp [h1, h2, h3, countCode, mkStatementsIssue, mkRolesWarn]

theorem countCode_reqIssues_roles (b : String) (v : ReqView) :
    countCode (reqIssues b v) "FEDRAMP_MISSING_RESPONSIBLE_ROLES"
      = if v.cid != "" && v.rolesFalsy then 1 else 0 := by
  unfold reqIssues
  by_cases h1 : v.cid = ""
  · simp [h1, countCode]
  · by_cases h2 : v.stmtsFalsy
    · by_cases h3 : v.rolesFalsy
      · simp [h1, h2, h3, countCode, mkStatementsIssue, mkRolesWarn]
      · simp [h1, h2, h3, countCode, mkStatementsIssue, mkRolesWarn]
    · by_cases h3 : v.rolesFalsy
      · simp [h1, h2, h3, countCode, mkStatementsIssue, mkRolesWarn]
      · simp [h1, h2, h3, countCode, mkStatementsIssue, mkRolesWarn]

theorem countCode_flatMap_stmt (b : String) (views : List ReqView) :
    countCode (views.flatMap (reqIssues b)) "FEDRAMP_MISSING_CONTROL_STATEMENTS"
      = (views.filter (fun v => v.cid != "" && v.stmtsFalsy)).length := by
  induction views with
  | nil => simp [countCode]
  | cons v vs ih =>
    rw [List.flatMap_cons, countCode_append, ih, countCode_reqIssues_stmt,
        List.filter_cons]
    by_cases hp : v.cid != "" && v.stmtsFalsy
    · simp [hp, Nat.add_comm]
    · simp [hp]

theorem countCode_flatMap_roles (b : String) (views : List ReqView) :
    countCode (views.flatMap (reqIssues b)) "FEDRAMP_MISSING_RESPONSIBLE_ROLES"
      = (views.filter (fun v => v.cid != "" && v.rolesFalsy)).length := by
  induction views with
  | nil => simp [countCode]
  | cons v vs ih =>
    rw [List.flatMap_cons, countCode_append, ih, countCode_reqIssues_roles,
        List.filter_cons]
    by_cases hp : v.cid != "" && v.rolesFalsy
    · simp [hp, Nat.add_comm]
    · simp [hp]

theorem control_codes {t : Json} {b : String} {iss : List Issue}
    (h : validate_control_implementation t b = .ok iss) :
    ∀ i ∈ iss, i.code = "FEDRAMP_MISSING_CONTROL_STATEMENTS" ∨
               i.code = "FEDRAMP_MISSING_RESPONSIBLE_ROLES" ∨
               i.code = "FEDRAMP_MISSING_REQUIRED_CONTROL" ∨
               i.code = "FEDRAMP_INSUFFICIENT_CONTROLS" := by
  rcases validate_control_implementation_ok h with ⟨views, _, rfl⟩
  intro i hi
  unfold controlIssues at hi
  rcases List.mem_append.mp hi with hi2 | hins
  · rcases List.mem_append.mp hi2 with hpr | hmc
    · rcases List.mem_flatMap.mp hpr with ⟨v, _, hiv⟩
      rcases reqIssues_codes b v i hiv with h1 | h1
      · exact .inl h1
      · exact .inr (.inl h1)
    · rcases List.mem_map.mp hmc with ⟨c, _, rfl⟩
      exact .inr (.inr (.inl rfl))
  · split at hins
    · simp at hins; subst hins; exact .inr (.inr (.inr rfl))
    · simp at hins

/-- For an unrecognized baseline the required-control set is empty and the
minimum is 0, so only the per-requirement codes can appear. -/
theorem control_codes_unknown {t : Json} {b : String} {iss : List Issue}
    (hb : baselineRequirements b = none)
    (h : validate_control_implementation t b = .ok iss) :
    ∀ i ∈ iss, i.code = "FEDRAMP_MISSING_CONTROL_STATEMENTS" ∨
               i.code = "FEDRAMP_MISSING_RESPONSIBLE_ROLES" := by
  rcases validate_control_implementation_ok h with ⟨views, _, rfl⟩
  have hrc : requiredControlsOf b = [] := by
    unfold requiredControlsOf
    rw [hb]
    rfl
  have hmc : minControlsOf b = 0 := by
    unfold minControlsOf
    rw [hb]
  intro i hi
  unfold controlIssues at hi
  rw [hrc, hmc] at hi
  simp only [List.filter_nil, List.map_nil, Nat.not_lt_zero, if_false,
             List.append_nil] at hi
  exact reqIssues_codes b _ i (List.mem_flatMap.mp hi).choose_spec.2

theorem roles_codes {t : Json} {iss : List Issue}
    (h : validate_responsible_roles t = .ok iss) :
    ∀ i ∈ iss, i.code = "FEDRAMP_MISSING_ROLE" ∨
               i.code = "FEDRAMP_ROLE_WITHOUT_PARTY" := by
  unfold validate_responsible_roles at h
  split at h
  · exact absurd h (by simp)
  · split at h
    · exact absurd h (by simp)
    · split at h
      · exact absurd h (by simp)
      · split at h
        · exact absurd h (by simp)
        · split at h
          · exact absurd h (by simp)
          · split at h
            · exact absurd h (by simp)
            · split at h
              · exact absurd h (by simp)
              · split at h
                · exact absurd h (by simp)
                · split at h
                  · exact absurd h (by simp)
                  · cases Except.ok.inj h
                    intro i hi
                    rcases List.mem_append.mp hi with hm | hp
                    · rcases List.mem_map.mp hm with ⟨r, _, rfl⟩
                      exact .inl rfl
                    · rcases List.mem_map.mp hp with ⟨v, _, rfl⟩
                      exact .inr rfl

theorem compIssues_codes (idx : Nat) (v : CompView) :
    ∀ i ∈ compIssues idx v, i.code = "FEDRAMP_COMPONENT_MISSING_UUID" ∨
                            i.code = "FEDRAMP_COMPONENT_MISSING_TYPE" ∨
                            i.code = "FEDRAMP_COMPONENT_MISSING_TITLE" := by
  intro i hi
  unfold compIssues at hi
  rcases List.mem_append.mp hi with hi2 | ht
  · rcases List.mem_append.mp hi2 with hu | hty
    · split at hu
      · simp at hu; subst hu; exact .inl rfl
      · simp at hu
    · split at hty
      · simp at hty; subst hty; exact .inr (.inl rfl)
      · simp at hty
  · split at ht
    · simp at ht; subst ht; exact .inr (.inr rfl)
    · simp at ht

theorem components_codes {t : Json} {iss : List Issue}
    (h : validate_components t = .ok iss) :
    ∀ i ∈ iss, i.code = "FEDRAMP_NO_COMPONENTS" ∨
               i.code = "FEDRAMP_COMPONENT_MISSING_UUID" ∨
               i.code = "FEDRAMP_COMPONENT_MISSING_TYPE" ∨
               i.code = "FEDRAMP_COMPONENT_MISSING_TITLE" := by
  unfold validate_components at h
  split at h
  · exact absurd h (by simp)
  · split at h
    · exact absurd h (by simp)
    · split at h
      · exact absurd h (by simp)
      · split at h
        · cases Except.ok.inj h
          intro i hi
          simp at hi
          subst hi
          exact .inl rfl
        · split at h
          · exact absurd h (by simp)
          · split at h
            · exact absurd h (by simp)
            · cases Except.ok.inj h
              intro i hi
              rcases List.mem_flatten.mp hi with ⟨l, hl, hil⟩
              rcases List.mem_map.mp hl with ⟨p, _, rfl⟩
              rcases compIssues_codes p.1 p.2 i hil with h1 | h1 | h1
              · exact .inr (.inl h1)
              · exact .inr (.inr (.inl h1))
              · exact .inr (.inr (.inr h1))

theorem auth_codes {t : Json} {iss : List Issue}
    (h : validate_authorization_boundary t = .ok iss) :
    ∀ i ∈ iss, i.code = "FEDRAMP_MISSING_AUTH_BOUNDARY" ∨
               i.code = "FEDRAMP_INSUFFICIENT_AUTH_BOUNDARY" ∨
               i.code = "FEDRAMP_MISSING_NETWORK_ARCH" := by
  unfold validate_authorization_boundary at h
  split at h
  · exact absurd h (by simp)
  · split at h
    · exact absurd h (by simp)
    · split at h
      · exact absurd h (by simp)
      · rename_i ab hab
        split at h
        · exact absurd h (by simp)
        · rename_i abIss habIss
          split at h
          · exact absurd h (by simp)
          · rename_i na hna
            cases Except.ok.inj h
            have habc : ∀ i ∈ abIss, i.code = "FEDRAMP_MISSING_AUTH_BOUNDARY" ∨
                        i.code = "FEDRAMP_INSUFFICIENT_AUTH_BOUNDARY" := by
              by_cases htr : optTruthy ab
              · rw [if_pos htr] at habIss
                split at habIss
                · exact absurd habIss (by simp)
                · split at habIss
                  · split at habIss
                    · exact absurd habIss (by simp)
                    · split at habIss
                      · cases Except.ok.inj habIss
                        intro i hi
                        simp at hi
                        subst hi
                        exact .inr rfl
                      · cases Except.ok.inj habIss
                        intro i hi
                        simp at hi
                  · cases Except.ok.inj habIss
                    intro i hi
                    simp at hi
                    subst hi
                    exact .inr rfl
              · rw [if_neg htr] at habIss
                cases Except.ok.inj habIss
                intro i hi
                simp at hi
                subst hi
                exact .inl rfl
            intro i hi
            rcases List.mem_append.mp hi with hil | hir
            · rcases habc i hil with h1 | h1
              · exact .inl h1
              · exact .inr (.inl h1)
            · split at hir
              · simp at hir
              · simp at hir
                subst hir
                exact .inr (.inr rfl)

theorem dataflow_codes {t : Json} {b : String} {iss : List Issue}
    (h : validate_data_flows t b = .ok iss) :
    ∀ i ∈ iss, i.code = "FEDRAMP_MISSING_DATA_FLOW" := by
  unfold validate_data_flows at h
  split at h
  · cases Except.ok.inj h
    intro i hi
    simp at hi
  · split at h
    · exact absurd h (by simp)
    · split at h
      · exact absurd h (by simp)
      · split at h
        · exact absurd h (by simp)
        · cases Except.ok.inj h
          intro i hi
          split at hi
          · simp at hi
          · simp at hi
            subst hi
            rfl

theorem artifacts_codes {t : Json} {b : String} {iss : List Issue}
    (h : validate_required_artifacts t b = .ok iss) :
    ∀ i ∈ iss, i.code = "FEDRAMP_MISSING_ARTIFACT" := by
  unfold validate_required_artifacts at h
  split at h
  · exact absurd h (by simp)
  · split at h
    · exact absurd h (by simp)
    · split at h
      · exact absurd h (by simp)
      · split at h
        · exact absurd h (by simp)
        · split at h
          · exact absurd h (by simp)
          · cases Except.ok.inj h
            intro i hi
            rcases List.mem_map.mp hi with ⟨a, _, rfl⟩
            rfl

/-- All issue codes the eight checkers can produce. -/
def sspCheckerCodes : List String :=
  ["FEDRAMP_MISSING_ELEMENT", "FEDRAMP_INVALID_UUID",
   "FEDRAMP_MISSING_SYSTEM_NAME", "FEDRAMP_MISSING_SYSTEM_ID",
   "FEDRAMP_MISSING_VERSION", "FEDRAMP_MISSING_LAST_MODIFIED",
   "FEDRAMP_MISSING_CONTROL_STATEMENTS", "FEDRAMP_MISSING_RESPONSIBLE_ROLES",
   "FEDRAMP_MISSING_REQUIRED_CONTROL", "FEDRAMP_INSUFFICIENT_CONTROLS",
   "FEDRAMP_MISSING_ROLE", "FEDRAMP_ROLE_WITHOUT_PARTY",
   "FEDRAMP_NO_COMPONENTS", "FEDRAMP_COMPONENT_MISSING_UUID",
   "FEDRAMP_COMPONENT_MISSING_TYPE", "FEDRAMP_COMPONENT_MISSING_TITLE",
   "FEDRAMP_MISSING_AUTH_BOUNDARY", "FEDRAMP_INSUFFICIENT_AUTH_BOUNDARY",
   "FEDRAMP_MISSING_NETWORK_ARCH", "FEDRAMP_MISSING_DATA_FLOW",
   "FEDRAMP_MISSING_ARTIFACT"]

theorem checkerResults_codes {t : Json} {b : String} {r : Except PyErr (List Issue)}
    (hr : r ∈ checkerResults t b) {iss : List Issue} (heq : r = .ok iss) :
    ∀ i ∈ iss, i.code ∈ sspCheckerCodes := by
  simp only [checkerResults, List.mem_cons, List.not_mem_nil, or_false] at hr
  intro i hi
  rcases hr with rfl | rfl | rfl | rfl | rfl | rfl | rfl | rfl
  · rcases struct_codes heq i hi with h1 | h1 <;> rw [h1] <;> decide
  · rcases metadata_codes heq i hi with h1 | h1 | h1 | h1 <;> rw [h1] <;> decide
  · rcases control_codes heq i hi with h1 | h1 | h1 | h1 <;> rw [h1] <;> decide
  · rcases roles_codes heq i hi with h1 | h1 <;> rw [h1] <;> decide
  · rcases components_codes heq i hi with h1 | h1 | h1 | h1 <;> rw [h1] <;> decide
  · rcases auth_codes heq i hi with h1 | h1 | h1 <;> rw [h1] <;> decide
  · rw [dataflow_codes heq i hi]; decide
  · rw [artifacts_codes heq i hi]; decide

theorem validate_ssp_issues (t : Json) (b : String) :
    (validate_ssp t b).issues
      = (collectIssues (checkerResults t b)).1
        ++ (match (collectIssues (checkerResults t b)).2 with
            | some e => [mkValidationError e]
            | none => []) := rfl

theorem validate_ssp_codes (t : Json) (b : String) :
    ∀ i ∈ (validate_ssp t b).issues,
      i.code ∈ ("FEDRAMP_VALIDATION_ERROR" :: sspCheckerCodes) := by
  intro i hi
  rw [validate_ssp_issues] at hi
  rcases List.mem_append.mp hi with hc | hx
  · rcases collectIssues_mem hc with ⟨r, hr, iss2, heq, hmem⟩
    exact List.mem_cons_of_mem _ (checkerResults_codes hr heq i hmem)
  · cases hsnd : (collectIssues (checkerResults t b)).2 with
    | none => rw [hsnd] at hx; simp at hx
    | some e =>
      rw [hsnd] at hx
      simp at hx
      subst hx
      exact List.mem_cons_self _ _

/-- Claim C4: the orchestrator is a total function (hence never propagates an
exception) returning a result echoing the inputs; its issues are exactly those
of the checkers that completed, followed by exactly one
`FEDRAMP_VALIDATION_ERROR` issue when a checker raised and by none
otherwise. -/
theorem c4_orchestrator_never_raises (t : Json) (b : String) :
    (validate_ssp t b).baseline = b ∧
    (validate_ssp t b).document_type = "system-security-plan" ∧
    (validate_ssp t b).issues
      = (collectIssues (checkerResults t b)).1
        ++ (match (collectIssues (checkerResults t b)).2 with
            | some e => [mkValidationError e]
            | none => []) ∧
    countCode (validate_ssp t b).issues "FEDRAMP_VALIDATION_ERROR"
      = (match (collectIssues (checkerResults t b)).2 with
         | some _ => 1
         | none => 0) := by
  refine ⟨rfl, rfl, validate_ssp_issues t b, ?_⟩
  rw [validate_ssp_issues, countCode_append]
  have h0 : countCode (collectIssues (checkerResults t b)).1
      "FEDRAMP_VALIDATION_ERROR" = 0 := by
    apply countCode_eq_zero
    intro i hi hcode
    rcases collectIssues_mem hi with ⟨r, hr, iss2, heq, hmem⟩
    have := checkerResults_codes hr heq i hmem
    rw [hcode] at this
    exact absurd this (by decide)
  rw [h0]
  cases hsnd : (collectIssues (checkerResults t b)).2 with
  | none => simp [countCode]
  | some e => simp [countCode, mkValidationError]

theorem validate_ssp_is_compliant (t : Json) (b : String) :
    (validate_ssp t b).is_compliant
      = (errorCount (validate_ssp t b).issues == 0) := rfl

/-- Claim C1: for every result the engine produces — `validate_ssp` on any
document tree and baseline, `validate_document` on any source — the
`is_compliant` flag is true exactly when the issue list contains no
`error`-severity issue; warnings and infos never affect it. -/
theorem c1_is_compliant_iff_no_errors :
    (∀ (t : Json) (b : String),
       (validate_ssp t b).is_compliant = true ↔
         errorCount (validate_ssp t b).issues = 0) ∧
    (∀ (src : DocSource) (b : String) (dt : Option String),
       (validate_document src b dt).is_compliant = true ↔
         errorCount (validate_document src b dt).issues = 0) := by
  have hssp : ∀ (t : Json) (b : String),
      (validate_ssp t b).is_compliant = true ↔
        errorCount (validate_ssp t b).issues = 0 := by
    intro t b
    rw [validate_ssp_is_compliant]
    simp
  refine ⟨hssp, ?_⟩
  intro src b dt
  cases src with
  | nonJson =>
    simp [validate_document, failedResult, errorCount, mkValidationFailed]
  | jsonFile dec =>
    cases dec with
    | error e =>
      simp [validate_document, failedResult, errorCount, mkValidationFailed]
    | ok doc =>
      simp only [validate_document]
      cases hres : resolveDocType doc dt with
      | error e => simp [failedResult, errorCount, mkValidationFailed]
      | ok dtv =>
        by_cases hd : dtv = "system-security-plan"
        · simp only [hd, if_pos rfl]
          exact hssp doc b
        · simp [hd, unsupportedResult, errorCount, mkUnsupportedIssue]

/-- The SSP root of the C2 failing input: all five inner required sections
present and a well-formed UUID. -/
def c2Root : Json :=
  Json.obj [("uuid", Json.str "12345678-1234-1234-1234-123456789abc"),
            ("metadata", Json.obj []),
            ("system-characteristics", Json.obj []),
            ("system-implementation", Json.obj []),
            ("control-implementation", Json.obj [])]

/-- The C2 failing input: a document tree correctly keyed
`system-security-plan` at top level. -/
def c2Tree : Json := Json.obj [("system-security-plan", c2Root)]

/-- Claim C2 (code-bug evaluation): the top level of the tree is keyed
`system-security-plan`, the root carries all five inner required sections and
a valid UUID, yet the structural checker still emits exactly one
`FEDRAMP_MISSING_ELEMENT` error, for `system-security-plan` itself — because
the source looks the root key up inside `ssp_data["system-security-plan"]`
instead of at top level. -/
theorem c2_structure_check_misplaced_root_eval :
    pyContains c2Tree "system-security-plan" = .ok true ∧
    pyContains c2Root "uuid" = .ok true ∧
    pyContains c2Root "metadata" = .ok true ∧
    pyContains c2Root "system-characteristics" = .ok true ∧
    pyContains c2Root "system-implementation" = .ok true ∧
    pyContains c2Root "control-implementation" = .ok true ∧
    pyUuidMatch "12345678-1234-1234-1234-123456789abc" = true ∧
    validate_ssp_structure c2Tree
      = .ok [mkMissingElement "system-security-plan"] :=
  ⟨rfl, rfl, rfl, rfl, rfl, rfl, by decide, rfl⟩

theorem contains_flag_ok {root : Json} {e : String} {p : String × Bool}
    (h : (pyContains root e).map (fun pres => (e, pres)) = .ok p) :
    ∃ bv, pyContains root e = .ok bv ∧ p = (e, bv) := by
  cases hc : pyContains root e with
  | error e2 => rw [hc] at h; exact absurd h (by simp [Except.map])
  | ok bv =>
    rw [hc] at h
    simp [Except.map] at h
    exact ⟨bv, rfl, h.symm⟩

/-- Claim C6: the missing-element check and the format check for `uuid` are
mutually exclusive.  A tree whose SSP root lacks the `uuid` key gets exactly
one `FEDRAMP_MISSING_ELEMENT` error located at `system-security-plan.uuid`
and no `FEDRAMP_INVALID_UUID`; a tree whose SSP root has a string `uuid`
failing the 8-4-4-4-12 lowercase-hex pattern gets exactly one
`FEDRAMP_INVALID_UUID` error and no missing-element error for `uuid`. -/
theorem c6_uuid_checks_mutually_exclusive :
    (∀ (t root : Json) (iss : List Issue),
       pyGetD t "system-security-plan" (Json.obj []) = .ok root →
       pyContains root "uuid" = .ok false →
       validate_ssp_structure t = .ok iss →
       countCode iss "FEDRAMP_INVALID_UUID" = 0 ∧
       (iss.filter (fun i => i.code == "FEDRAMP_MISSING_ELEMENT"
          && i.location == some "system-security-plan.uuid")).length = 1) ∧
    (∀ (t root : Json) (s : String) (iss : List Issue),
       pyGetD t "system-security-plan" (Json.obj []) = .ok root →
       pyContains root "uuid" = .ok true →
       pyIndex root "uuid" = .ok (Json.str s) →
       pyUuidMatch s = false →
       validate_ssp_structure t = .ok iss →
       countCode iss "FEDRAMP_INVALID_UUID" = 1 ∧
       (iss.filter (fun i => i.code == "FEDRAMP_MISSING_ELEMENT"
          && i.location == some "system-security-plan.uuid")).length = 0) := by
  constructor
  · intro t root iss hroot hcu hstruct
    rcases validate_ssp_structure_ok hstruct with
      ⟨root2, flags, uIss, hroot2, hflags, huIss, rfl⟩
    have hre : root = root2 := Except.ok.inj (hroot.symm.trans hroot2)
    subst hre
    rw [show requiredElements
        = "system-security-plan" :: "uuid" :: "metadata" :: "system-characteristics"
          :: "system-implementation" :: "control-implementation" :: [] from rfl] at hflags
    obtain ⟨p1, r1, hf1, hr1, rfl⟩ := exMapM_cons_ok hflags
    obtain ⟨p2, r2, hf2, hr2, rfl⟩ := exMapM_cons_ok hr1
    obtain ⟨p3, r3, hf3, hr3, rfl⟩ := exMapM_cons_ok hr2
    obtain ⟨p4, r4, hf4, hr4, rfl⟩ := exMapM_cons_ok hr3
    obtain ⟨p5, r5, hf5, hr5, rfl⟩ := exMapM_cons_ok hr4
    obtain ⟨p6, r6, hf6, hr6, rfl⟩ := exMapM_cons_ok hr5
    have hr6e : r6 = [] := (Except.ok.inj ((exMapM_nil_ok _).symm.trans hr6)).symm
    subst hr6e
    obtain ⟨b1, hc1, rfl⟩ := contains_flag_ok hf1
    obtain ⟨b2, hc2, rfl⟩ := contains_flag_ok hf2
    obtain ⟨b3, hc3, rfl⟩ := contains_flag_ok hf3
    obtain ⟨b4, hc4, rfl⟩ := contains_flag_ok hf4
    obtain ⟨b5, hc5, rfl⟩ := contains_flag_ok hf5
    obtain ⟨b6, hc6, rfl⟩ := contains_flag_ok hf6
    have hb2 : b2 = false := Except.ok.inj (hc2.symm.trans hcu)
    subst hb2
    have hu : uuidIssues root = .ok [] := by
      unfold uuidIssues
      rw [hcu]
    have hue : uIss = [] := (Except.ok.inj (hu.symm.trans huIss)).symm
    subst hue
    cases b1 <;> cases b3 <;> cases b4 <;> cases b5 <;> cases b6 <;> decide
  · intro t root s iss hroot hcu hidx hmatch hstruct
    rcases validate_ssp_structure_ok hstruct with
      ⟨root2, flags, uIss, hroot2, hflags, huIss, rfl⟩
    have hre : root = root2 := Except.ok.inj (hroot.symm.trans hroot2)
    subst hre
    rw [show requiredElements
        = "system-security-plan" :: "uuid" :: "metadata" :: "system-characteristics"
          :: "system-implementation" :: "control-implementation" :: [] from rfl] at hflags
    obtain ⟨p1, r1, hf1, hr1, rfl⟩ := exMapM_cons_ok hflags
    obtain ⟨p2, r2, hf2, hr2, rfl⟩ := exMapM_cons_ok hr1
    obtain ⟨p3, r3, hf3, hr3, rfl⟩ := exMapM_cons_ok hr2
    obtain ⟨p4, r4, hf4, hr4, rfl⟩ := exMapM_cons_ok hr3
    obtain ⟨p5, r5, hf5, hr5, rfl⟩ := exMapM_cons_ok hr4
    obtain ⟨p6, r6, hf6, hr6, rfl⟩ := exMapM_cons_ok hr5
    have hr6e : r6 = [] := (Except.ok.inj ((exMapM_nil_ok _).symm.trans hr6)).symm
    subst hr6e
    obtain ⟨b1, hc1, rfl⟩ := contains_flag_ok hf1
    obtain ⟨b2, hc2, rfl⟩ := contains_flag_ok hf2
    obtain ⟨b3, hc3, rfl⟩ := contains_flag_ok hf3
    obtain ⟨b4, hc4, rfl⟩ := contains_flag_ok hf4
    obtain ⟨b5, hc5, rfl⟩ := contains_flag_ok hf5
    obtain ⟨b6, hc6, rfl⟩ := contains_flag_ok hf6
    have hb2 : b2 = true := Except.ok.inj (hc2.symm.trans hcu)
    subst hb2
    have hu : uuidIssues root = .ok [mkInvalidUuid] := by
      unfold uuidIssues
      rw [hcu, hidx]
      simp [hmatch]
    have hue : uIss = [mkInvalidUuid] := (Except.ok.inj (hu.symm.trans huIss)).symm
    subst hue
    cases b1 <;> cases b3 <;> cases b4 <;> cases b5 <;> cases b6 <;> decide

def c6TreeB : Json :=
  Json.obj [("system-security-plan", Json.obj [("uuid", Json.str "not-a-uuid")])]

def c6IssA : List Issue :=
  [mkMissingElement "system-security-plan", mkMissingElement "uuid",
   mkMissingElement "metadata", mkMissingElement "system-characteristics",
   mkMissingElement "system-implementation", mkMissingElement "control-implementation"]

def c6IssB : List Issue :=
  [mkMissingElement "system-security-plan", mkMissingElement "metadata",
   mkMissingElement "system-characteristics", mkMissingElement "system-implementation",
   mkMissingElement "control-implementation", mkInvalidUuid]

/-- Witness for C6: both halves of the exclusivity theorem instantiated at
concrete documents, one lacking `uuid` and one with `uuid = "not-a-uuid"`. -/
theorem c6_uuid_checks_mutually_exclusive_witness :
    (countCode c6IssA "FEDRAMP_INVALID_UUID" = 0 ∧
     (c6IssA.filter (fun i => i.code == "FEDRAMP_MISSING_ELEMENT"
        && i.location == some "system-security-plan.uuid")).length = 1) ∧
    (countCode c6IssB "FEDRAMP_INVALID_UUID" = 1 ∧
     (c6IssB.filter (fun i => i.code == "FEDRAMP_MISSING_ELEMENT"
        && i.location == some "system-security-plan.uuid")).length = 0) :=
  ⟨c6_uuid_checks_mutually_exclusive.1 (Json.obj []) (Json.obj []) c6IssA
     rfl rfl rfl,
   c6_uuid_checks_mutually_exclusive.2 c6TreeB
     (Json.obj [("uuid", Json.str "not-a-uuid")]) "not-a-uuid" c6IssB
     rfl rfl rfl rfl rfl⟩

/-- Claim C3: with `R` the baseline required-control set, `m` its minimum
count and `I` the distinct lower-cased implemented control ids, the checker
emits exactly one missing-control error per element of `R` minus `I` (the
filtered list mapped one-to-one onto issues) plus exactly one additional
insufficient-controls error when the number of distinct implemented controls
is below `m`, and none otherwise. -/
theorem c3_control_coverage_counts (t : Json) (b : String) (iss : List Issue)
    (impl : List String)
    (h : validate_control_implementation t b = .ok iss)
    (himpl : implementedControlsE t = .ok impl) :
    iss.filter (fun i => i.code == "FEDRAMP_MISSING_REQUIRED_CONTROL")
      = ((requiredControlsOf b).filter (fun c => !impl.contains c)).map
          (mkMissingControlIssue b) ∧
    iss.filter (fun i => i.code == "FEDRAMP_INSUFFICIENT_CONTROLS")
      = (if impl.length < minControlsOf b then
           [mkInsufficientIssue b (minControlsOf b) impl.length] else []) ∧
    countCode iss "FEDRAMP_MISSING_REQUIRED_CONTROL"
      = ((requiredControlsOf b).filter (fun c => !impl.contains c)).length ∧
    countCode iss "FEDRAMP_INSUFFICIENT_CONTROLS"
      = (if impl.length < minControlsOf b then 1 else 0) := by
  rcases validate_control_implementation_ok h with ⟨views, hv, rfl⟩
  have himpl2 : impl = implControls views := by
    unfold implementedControlsE at himpl
    rw [hv] at himpl
    exact (Except.ok.inj himpl).symm
  subst himpl2
  have hpr1 : (views.flatMap (reqIssues b)).filter
      (fun i => i.code == "FEDRAMP_MISSING_REQUIRED_CONTROL") = [] := by
    rw [List.filter_eq_nil_iff]
    intro i hi
    rcases List.mem_flatMap.mp hi with ⟨v, _, hiv⟩
    rcases reqIssues_codes b v i hiv with hc | hc <;> rw [hc] <;> decide
  have hpr2 : (views.flatMap (reqIssues b)).filter
      (fun i => i.code == "FEDRAMP_INSUFFICIENT_CONTROLS") = [] := by
    rw [List.filter_eq_nil_iff]
    intro i hi
    rcases List.mem_flatMap.mp hi with ⟨v, _, hiv⟩
    rcases reqIssues_codes b v i hiv with hc | hc <;> rw [hc] <;> decide
  have hmm1 : (((requiredControlsOf b).filter
        (fun c => !(implControls views).contains c)).map
        (mkMissingControlIssue b)).filter
      (fun i => i.code == "FEDRAMP_MISSING_REQUIRED_CONTROL")
      = ((requiredControlsOf b).filter
          (fun c => !(implControls views).contains c)).map
          (mkMissingControlIssue b) := by
    rw [List.filter_eq_self]
    intro i hi
    rcases List.mem_map.mp hi with ⟨c, _, rfl⟩
    simp [mkMissingControlIssue]
  have hmm2 : (((requiredControlsOf b).filter
        (fun c => !(implControls views).contains c)).map
        (mkMissingControlIssue b)).filter
      (fun i => i.code == "FEDRAMP_INSUFFICIENT_CONTROLS") = [] := by
    rw [List.filter_eq_nil_iff]
    intro i hi
    rcases List.mem_map.mp hi with ⟨c, _, rfl⟩
    simp [mkMissingControlIssue]
  have hins1 : ((if (implControls views).length < minControlsOf b then
        [mkInsufficientIssue b (minControlsOf b) (implControls views).length]
        else []) : List Issue).filter
      (fun i => i.code == "FEDRAMP_MISSING_REQUIRED_CONTROL") = [] := by
    by_cases hlt : (implControls views).length < minControlsOf b
    · simp [hlt, mkInsufficientIssue]
    · simp [hlt]
  have hins2 : ((if (implControls views).length < minControlsOf b then
        [mkInsufficientIssue b (minControlsOf b) (implControls views).length]
        else []) : List Issue).filter
      (fun i => i.code == "FEDRAMP_INSUFFICIENT_CONTROLS")
      = (if (implControls views).length < minControlsOf b then
           [mkInsufficientIssue b (minControlsOf b) (implControls views).length]
         else []) := by
    by_cases hlt : (implControls views).length < minControlsOf b
    · simp [hlt, mkInsufficientIssue]
    · simp [hlt]
  have hfil1 : (controlIssues b views).filter
      (fun i => i.code == "FEDRAMP_MISSING_REQUIRED_CONTROL")
      = ((requiredControlsOf b).filter
          (fun c => !(implControls views).contains c)).map
          (mkMissingControlIssue b) := by
    simp only [controlIssues, List.filter_append]
    rw [hpr1, hmm1, hins1]
    simp
  have hfil2 : (controlIssues b views).filter
      (fun i => i.code == "FEDRAMP_INSUFFICIENT_CONTROLS")
      = (if (implControls views).length < minControlsOf b then
           [mkInsufficientIssue b (minControlsOf b) (implControls views).length]
         else []) := by
    simp only [controlIssues, List.filter_append]
    rw [hpr2, hmm2, hins2]
    simp
  refine ⟨hfil1, hfil2, ?_, ?_⟩
  · rw [countCode, hfil1, List.length_map]
  · rw [countCode, hfil2]
    by_cases hlt : (implControls views).length < minControlsOf b
    · simp [hlt]
    · simp [hlt]

/-- Witness for C3: the empty document against baseline `high` (required set
empty, minimum 421, zero implemented controls): no missing-control error and
exactly one insufficient-controls error. -/
theorem c3_control_coverage_counts_witness :
    ([mkInsufficientIssue "high" 421 0].filter
       (fun i => i.code == "FEDRAMP_MISSING_REQUIRED_CONTROL")
      = ((requiredControlsOf "high").filter
          (fun c => !([] : List String).contains c)).map
          (mkMissingControlIssue "high")) ∧
    ([mkInsufficientIssue "high" 421 0].filter
       (fun i => i.code == "FEDRAMP_INSUFFICIENT_CONTROLS")
      = (if ([] : List String).length < minControlsOf "high" then
           [mkInsufficientIssue "high" (minControlsOf "high")
              ([] : List String).length] else [])) ∧
    countCode [mkInsufficientIssue "high" 421 0] "FEDRAMP_MISSING_REQUIRED_CONTROL"
      = ((requiredControlsOf "high").filter
          (fun c => !([] : List String).contains c)).length ∧
    countCode [mkInsufficientIssue "high" 421 0] "FEDRAMP_INSUFFICIENT_CONTROLS"
      = (if ([] : List String).length < minControlsOf "high" then 1 else 0) :=
  c3_control_coverage_counts (Json.obj []) "high"
    [mkInsufficientIssue "high" 421 0] [] rfl rfl

def okIssues : Except PyErr (List Issue) → Option (List Issue)
  | .ok iss => some iss
  | .error _ => none

/-- A requirement record with empty `statements` and empty `responsible-roles`
but no `control-id` at all. -/
def c5Tree : Json :=
  Json.obj [("system-security-plan", Json.obj
    [("control-implementation", Json.obj
      [("implemented-requirements", Json.arr
        [Json.obj [("statements", Json.arr []),
                   ("responsible-roles", Json.arr [])]])])])]

/-- Counterexample to C5: the record has empty statements and empty
responsible-roles, so the claim demands one `FEDRAMP_MISSING_CONTROL_STATEMENTS`
error and one `FEDRAMP_MISSING_RESPONSIBLE_ROLES` warning — but because the
record carries no control-id, the checker emits neither. -/
theorem c5_per_requirement_checks_counterexample :
    (okIssues (validate_control_implementation c5Tree "low")).map
      (fun iss => (countCode iss "FEDRAMP_MISSING_CONTROL_STATEMENTS",
                   countCode iss "FEDRAMP_MISSING_RESPONSIBLE_ROLES"))
      = some (0, 0) := by decide

/-- Claim C5 as amended: the statements/roles checks apply exactly to the
records whose `control-id` is a non-empty string.  Part one: the checker
emits one statements error per record with a non-empty id and falsy
statements, and one roles warning per record with a non-empty id and falsy
responsible-roles (and none for records without an id).  Part two: the
per-record view is the lower-cased `control-id` with the truthiness of the
two lists. -/
theorem c5_per_requirement_checks_amended :
    (∀ (t : Json) (b : String) (views : List ReqView) (iss : List Issue),
       extractReqViews t = .ok views →
       validate_control_implementation t b = .ok iss →
       countCode iss "FEDRAMP_MISSING_CONTROL_STATEMENTS"
         = (views.filter (fun v => v.cid != "" && v.stmtsFalsy)).length ∧
       countCode iss "FEDRAMP_MISSING_RESPONSIBLE_ROLES"
         = (views.filter (fun v => v.cid != "" && v.rolesFalsy)).length) ∧
    (∀ (req : Json) (cid : String) (stmts roles : Json),
       pyGetD req "control-id" (Json.str "") = .ok (Json.str cid) →
       pyGetD req "statements" (Json.arr []) = .ok stmts →
       pyGetD req "responsible-roles" (Json.arr []) = .ok roles →
       extractReq req = .ok { cid := pyLower cid, stmtsFalsy := !stmts.truthy,
                              rolesFalsy := !roles.truthy }) ∧
    (∀ (b cid : String), (mkStatementsIssue b cid).severity = "error" ∧
                         (mkRolesWarn b cid).severity = "warning") := by
  refine ⟨?_, ?_, fun b cid => ⟨rfl, rfl⟩⟩
  · intro t b views iss hv h
    rcases validate_control_implementation_ok h with ⟨views2, hv2, rfl⟩
    have hve : views = views2 := Except.ok.inj (hv.symm.trans hv2)
    subst hve
    have hmm0 : ∀ (c : String), c = "FEDRAMP_MISSING_CONTROL_STATEMENTS" ∨
        c = "FEDRAMP_MISSING_RESPONSIBLE_ROLES" →
        countCode (((requiredControlsOf b).filter
          (fun c2 => !(implControls views).contains c2)).map
          (mkMissingControlIssue b)) c = 0 := by
      intro c hc
      apply countCode_eq_zero
      intro i hi
      rcases List.mem_map.mp hi with ⟨c2, _, rfl⟩
      rcases hc with rfl | rfl <;> simp [mkMissingControlIssue]
    have hins0 : ∀ (c : String), c = "FEDRAMP_MISSING_CONTROL_STATEMENTS" ∨
        c = "FEDRAMP_MISSING_RESPONSIBLE_ROLES" →
        countCode ((if (implControls views).length < minControlsOf b then
          [mkInsufficientIssue b (minControlsOf b) (implControls views).length]
          else []) : List Issue) c = 0 := by
      intro c hc
      apply countCode_eq_zero
      intro i hi
      by_cases hlt : (implControls views).length < minControlsOf b
      · rw [if_pos hlt] at hi
        simp at hi
        subst hi
        rcases hc with rfl | rfl <;> simp [mkInsufficientIssue]
      · rw [if_neg hlt] at hi
        simp at hi
    constructor
    · simp only [controlIssues, countCode_append]
      rw [countCode_flatMap_stmt,
          hmm0 _ (Or.inl rfl), hins0 _ (Or.inl rfl)]
      simp
    · simp only [controlIssues, countCode_append]
      rw [countCode_flatMap_roles,
          hmm0 _ (Or.inr rfl), hins0 _ (Or.inr rfl)]
      simp
  · intro req cid stmts roles hcid hs hr
    unfold extractReq
    rw [hcid]
    simp only [pyAsStr]
    rw [hs, hr]

def c5WitnessReq : Json :=
  Json.obj [("control-id", Json.str "AC-2"),
            ("statements", Json.arr []),
            ("responsible-roles", Json.arr [])]

def c5WitnessTree : Json :=
  Json.obj [("system-security-plan", Json.obj
    [("control-implementation", Json.obj
      [("implemented-requirements", Json.arr [c5WitnessReq])])])]

def c5WitnessView : ReqView :=
  { cid := "ac-2", stmtsFalsy := true, rolesFalsy := true }

def c5WitnessIssues : List Issue :=
  [mkStatementsIssue "high" "ac-2", mkRolesWarn "high" "ac-2",
   mkInsufficientIssue "high" 421 1]

/-- Witness for amended C5: one record with control-id `AC-2` and empty
statements/roles yields exactly one statements error and one roles warning. -/
theorem c5_per_requirement_checks_amended_witness :
    (countCode c5WitnessIssues "FEDRAMP_MISSING_CONTROL_STATEMENTS"
       = ([c5WitnessView].filter (fun v => v.cid != "" && v.stmtsFalsy)).length ∧
     countCode c5WitnessIssues "FEDRAMP_MISSING_RESPONSIBLE_ROLES"
       = ([c5WitnessView].filter (fun v => v.cid != "" && v.rolesFalsy)).length) ∧
    extractReq c5WitnessReq
      = .ok { cid := pyLower "AC-2", stmtsFalsy := !(Json.arr []).truthy,
              rolesFalsy := !(Json.arr []).truthy } :=
  ⟨c5_per_requirement_checks_amended.1 c5WitnessTree "high" [c5WitnessView]
     c5WitnessIssues rfl rfl,
   c5_per_requirement_checks_amended.2.1 c5WitnessReq "AC-2"
     (Json.arr []) (Json.arr []) rfl rfl rfl⟩

/-- A tree that has a `data-flow` entry whose value is an empty object. -/
def c7Tree : Json :=
  Json.obj [("system-security-plan", Json.obj
    [("system-characteristics", Json.obj [("data-flow", Json.obj [])])])]

/-- Counterexample to C7: this tree has the `data-flow` key (first conjunct),
yet against baseline `high` the checker still emits the missing-data-flow
error, because the source tests truthiness (`if not data_flow`), not
presence. -/
theorem c7_data_flow_counterexample :
    pyContains (Json.obj [("data-flow", Json.obj [])]) "data-flow" = .ok true ∧
    validate_data_flows c7Tree "high" = .ok [mkDataFlowIssue "high"] ∧
    (mkDataFlowIssue "high").severity = "error" :=
  ⟨rfl, rfl, rfl⟩

/-- Claim C7 as amended: for baseline `low` the checker always returns no
issues; when `system-characteristics.data-flow` is absent or falsy (empty),
`moderate` yields exactly one warning and `high` exactly one error with code
`FEDRAMP_MISSING_DATA_FLOW`; when `data-flow` is present and truthy, no
baseline yields any issue. -/
theorem c7_data_flow_amended :
    (∀ t : Json, validate_data_flows t "low" = .ok []) ∧
    (∀ (t root sc : Json) (v : Option Json),
       pyGetD t "system-security-plan" (Json.obj []) = .ok root →
       pyGetD root "system-characteristics" (Json.obj []) = .ok sc →
       pyDictGet sc "data-flow" = .ok v →
       (optTruthy v = false →
          validate_data_flows t "moderate" = .ok [mkDataFlowIssue "moderate"] ∧
          validate_data_flows t "high" = .ok [mkDataFlowIssue "high"]) ∧
       (optTruthy v = true →
          ∀ b : String, validate_data_flows t b = .ok [])) ∧
    (mkDataFlowIssue "moderate").severity = "warning" ∧
    (mkDataFlowIssue "high").severity = "error" := by
  refine ⟨?_, ?_, rfl, rfl⟩
  · intro t
    unfold validate_data_flows
    rw [if_pos rfl]
  · intro t root sc v hroot hsc hv
    constructor
    · intro hf
      constructor
      · unfold validate_data_flows
        rw [if_neg (by decide : ¬("moderate" = "low"))]
        simp [hroot, hsc, hv, hf]
      · unfold validate_data_flows
        rw [if_neg (by decide : ¬("high" = "low"))]
        simp [hroot, hsc, hv, hf]
    · intro ht b
      unfold validate_data_flows
      by_cases hb : b = "low"
      · rw [if_pos hb]
      · rw [if_neg hb]
        simp [hroot, hsc, hv, ht]

/-- A tree with a present, truthy `data-flow` entry. -/
def c7TruthyTree : Json :=
  Json.obj [("system-security-plan", Json.obj
    [("system-characteristics", Json.obj
      [("data-flow", Json.str "documented")])])]

/-- Witness for amended C7: a tree lacking `data-flow` gets the warning at
`moderate` and the error at `high`; a tree with truthy `data-flow` gets
nothing at `high`. -/
theorem c7_data_flow_amended_witness :
    (validate_data_flows (Json.obj []) "moderate"
       = .ok [mkDataFlowIssue "moderate"] ∧
     validate_data_flows (Json.obj []) "high"
       = .ok [mkDataFlowIssue "high"]) ∧
    validate_data_flows c7TruthyTree "high" = .ok [] :=
  ⟨(c7_data_flow_amended.2.1 (Json.obj []) (Json.obj []) (Json.obj []) none
      rfl rfl rfl).1 rfl,
   (c7_data_flow_amended.2.1 c7TruthyTree
      (Json.obj [("system-characteristics", Json.obj
        [("data-flow", Json.str "documented")])])
      (Json.obj [("data-flow", Json.str "documented")])
      (some (Json.str "documented")) rfl rfl rfl).2 rfl "high"⟩

/-- Claim C8: whenever the detected or supplied document type is a recognized
non-SSP type or `unknown`, `validate_document` returns the placeholder
result: compliant, with exactly one `info` issue saying validation for that
type is not yet implemented — the SSP rule chain is not run. -/
theorem c8_non_ssp_placeholder (doc : Json) (b : String) (dt : Option String)
    (dtv : String)
    (hres : resolveDocType doc dt = .ok dtv)
    (hmem : dtv ∈ ["catalog", "profile", "component-definition",
                   "assessment-plan", "assessment-results",
                   "plan-of-action-and-milestones", "unknown"]) :
    validate_document (.jsonFile (.ok doc)) b dt = unsupportedResult b dtv ∧
    (unsupportedResult b dtv).is_compliant = true ∧
    (unsupportedResult b dtv).issues = [mkUnsupportedIssue dtv] ∧
    (mkUnsupportedIssue dtv).severity = "info" ∧
    (mkUnsupportedIssue dtv).message
      = "FedRAMP validation not yet implemented for " ++ dtv ++ " documents" := by
  have hne : dtv ≠ "system-security-plan" := by
    simp only [List.mem_cons, List.not_mem_nil, or_false] at hmem
    rcases hmem with rfl | rfl | rfl | rfl | rfl | rfl | rfl <;> decide
  refine ⟨?_, rfl, rfl, rfl, rfl⟩
  simp [validate_document, hres, hne]

/-- Witness for C8: a catalog document with no supplied type is detected as
`catalog` and gets the placeholder result. -/
theorem c8_non_ssp_placeholder_witness :
    validate_document (.jsonFile (.ok (Json.obj [("catalog", Json.obj [])])))
        "moderate" none
      = unsupportedResult "moderate" "catalog" ∧
    (unsupportedResult "moderate" "catalog").is_compliant = true ∧
    (unsupportedResult "moderate" "catalog").issues
      = [mkUnsupportedIssue "catalog"] ∧
    (mkUnsupportedIssue "catalog").severity = "info" ∧
    (mkUnsupportedIssue "catalog").message
      = "FedRAMP validation not yet implemented for " ++ "catalog"
        ++ " documents" :=
  c8_non_ssp_placeholder (Json.obj [("catalog", Json.obj [])]) "moderate"
    none "catalog" rfl (by decide)

/-- Counterexample to C9: the required-control set of baseline `high` is
empty in the source (explicitly truncated there), so the set of `moderate`
is neither contained in it nor smaller than it. -/
theorem c9_baseline_chain_counterexample :
    "ac-1" ∈ requiredControlsOf "moderate" ∧
    "ac-1" ∉ requiredControlsOf "high" ∧
    (requiredControlsOf "high").length = 0 ∧
    ¬ ((∀ x ∈ requiredControlsOf "moderate", x ∈ requiredControlsOf "high") ∧
       (requiredControlsOf "moderate").length
         < (requiredControlsOf "high").length) := by
  refine ⟨by decide, by decide, rfl, ?_⟩
  rintro ⟨hsub, _⟩
  exact absurd (hsub "ac-1" (by decide)) (by decide)

/-- Claim C9 as amended: `low`'s required-control set is strictly contained
in (and strictly smaller than) `moderate`'s, but the chain fails at `high`,
whose required-control list is empty in the source. -/
theorem c9_baseline_chain_amended :
    (∀ x ∈ requiredControlsOf "low", x ∈ requiredControlsOf "moderate") ∧
    "ac-4" ∈ requiredControlsOf "moderate" ∧
    "ac-4" ∉ requiredControlsOf "low" ∧
    (requiredControlsOf "low").length < (requiredControlsOf "moderate").length ∧
    requiredControlsOf "high" = [] :=
  ⟨by decide, by decide, by decide, by decide, rfl⟩

/-- The codes reachable when the baseline string is unrecognized. -/
def unknownBaselineCodes : List String :=
  ["FEDRAMP_MISSING_ELEMENT", "FEDRAMP_INVALID_UUID",
   "FEDRAMP_MISSING_VERSION", "FEDRAMP_MISSING_LAST_MODIFIED",
   "FEDRAMP_MISSING_CONTROL_STATEMENTS", "FEDRAMP_MISSING_RESPONSIBLE_ROLES",
   "FEDRAMP_MISSING_ROLE", "FEDRAMP_ROLE_WITHOUT_PARTY",
   "FEDRAMP_NO_COMPONENTS", "FEDRAMP_COMPONENT_MISSING_UUID",
   "FEDRAMP_COMPONENT_MISSING_TYPE", "FEDRAMP_COMPONENT_MISSING_TITLE",
   "FEDRAMP_MISSING_AUTH_BOUNDARY", "FEDRAMP_INSUFFICIENT_AUTH_BOUNDARY",
   "FEDRAMP_MISSING_NETWORK_ARCH", "FEDRAMP_MISSING_DATA_FLOW",
   "FEDRAMP_MISSING_ARTIFACT", "FEDRAMP_VALIDATION_ERROR"]

theorem validate_ssp_codes_unknown {b : String}
    (hnone : baselineRequirements b = none) (t : Json) :
    ∀ i ∈ (validate_ssp t b).issues, i.code ∈ unknownBaselineCodes := by
  intro i hi
  rw [validate_ssp_issues] at hi
  rcases List.mem_append.mp hi with hc | hx
  · rcases collectIssues_mem hc with ⟨r, hr, iss2, heq, hmem⟩
    simp only [checkerResults, List.mem_cons, List.not_mem_nil, or_false] at hr
    rcases hr with rfl | rfl | rfl | rfl | rfl | rfl | rfl | rfl
    · rcases struct_codes heq i hmem with h1 | h1 <;> rw [h1] <;> decide
    · rcases metadata_codes_unknown hnone heq i hmem with h1 | h1 <;>
        rw [h1] <;> decide
    · rcases control_codes_unknown hnone heq i hmem with h1 | h1 <;>
        rw [h1] <;> decide
    · rcases roles_codes heq i hmem with h1 | h1 <;> rw [h1] <;> decide
    · rcases components_codes heq i hmem with h1 | h1 | h1 | h1 <;>
        rw [h1] <;> decide
    · rcases auth_codes heq i hmem with h1 | h1 | h1 <;> rw [h1] <;> decide
    · rw [dataflow_codes heq i hmem]; decide
    · rw [artifacts_codes heq i hmem]; decide
  · cases hsnd : (collectIssues (checkerResults t b)).2 with
    | none => rw [hsnd] at hx; simp at hx
    | some e =>
      rw [hsnd] at hx
      simp at hx
      subst hx
      rw [show (mkValidationError e).code = "FEDRAMP_VALIDATION_ERROR" from rfl]
      decide

/-- Claim C10: for a baseline string outside `low`/`moderate`/`high`, the
orchestrator (a total function, so it never raises) emits none of the four
baseline-table-driven codes — the registry lookup yields an empty
requirements structure — yet only the exact string `low` skips the data-flow
checker, so a document lacking (or with falsy) `data-flow` still receives the
missing-data-flow issue, with severity `warning` since the baseline is not
`high`. -/
theorem c10_unknown_baseline_behavior (b : String)
    (hb1 : b ≠ "low") (hb2 : b ≠ "moderate") (hb3 : b ≠ "high") :
    (∀ (t : Json), ∀ i ∈ (validate_ssp t b).issues,
       i.code ≠ "FEDRAMP_MISSING_REQUIRED_CONTROL" ∧
       i.code ≠ "FEDRAMP_INSUFFICIENT_CONTROLS" ∧
       i.code ≠ "FEDRAMP_MISSING_SYSTEM_NAME" ∧
       i.code ≠ "FEDRAMP_MISSING_SYSTEM_ID") ∧
    (∀ (t root sc : Json) (v : Option Json),
       pyGetD t "system-security-plan" (Json.obj []) = .ok root →
       pyGetD root "system-characteristics" (Json.obj []) = .ok sc →
       pyDictGet sc "data-flow" = .ok v →
       optTruthy v = false →
       validate_data_flows t b = .ok [mkDataFlowIssue b] ∧
       (mkDataFlowIssue b).severity = "warning") := by
  have hnone : baselineRequirements b = none := by
    unfold baselineRequirements
    rw [if_neg hb1, if_neg hb2, if_neg hb3]
  constructor
  · intro t i hi
    have hlist := validate_ssp_codes_unknown hnone t i hi
    refine ⟨?_, ?_, ?_, ?_⟩ <;> intro hc <;> rw [hc] at hlist <;>
      exact absurd hlist (by decide)
  · intro t root sc v hroot hsc hv hf
    constructor
    · unfold validate_data_flows
      rw [if_neg hb1]
      simp [hroot, hsc, hv, hf]
    · simp [mkDataFlowIssue, hb3]

/-- Witness for C10 at the concrete baseline string `custom`: the version
warning the empty document receives carries none of the four codes, and the
data-flow checker still fires with a warning. -/
theorem c10_unknown_baseline_behavior_witness :
    (mkVersionWarn.code ≠ "FEDRAMP_MISSING_REQUIRED_CONTROL" ∧
     mkVersionWarn.code ≠ "FEDRAMP_INSUFFICIENT_CONTROLS" ∧
     mkVersionWarn.code ≠ "FEDRAMP_MISSING_SYSTEM_NAME" ∧
     mkVersionWarn.code ≠ "FEDRAMP_MISSING_SYSTEM_ID") ∧
    (validate_data_flows (Json.obj []) "custom" = .ok [mkDataFlowIssue "custom"] ∧
     (mkDataFlowIssue "custom").severity = "warning") :=
  ⟨(c10_unknown_baseline_behavior "custom" (by decide) (by decide)
      (by decide)).1 (Json.obj []) mkVersionWarn (by decide),
   (c10_unknown_baseline_behavior "custom" (by decide) (by decide)
      (by decide)).2 (Json.obj []) (Json.obj []) (Json.obj []) none
      rfl rfl rfl rfl⟩

/-- Witness for amended C9: the subset part instantiated at the concrete
control `ac-1`. -/
theorem c9_baseline_chain_amended_witness :
    "ac-1" ∈ requiredControlsOf "moderate" :=
  c9_baseline_chain_amended.1 "ac-1" (by decide)
